import Mathlib

/-!
Verification development for the ynab-mcp server
(`src/ynab_mcp_server/server.py`, `src/ynab_mcp_server/tool_models.py`).

The dispatcher `handle_call_tool` is embedded as a pure function from a
tool name, an optional argument mapping and an explicit state (service
oracle + persisted overview document) to a result, a trace of service
calls and the updated state.  The upstream YNAB client is external to
the repository (it lives behind `ynab_client`), so it is modelled as an
oracle: each capability returns data recorded in the `Svc` structure and
every call is recorded in the trace.  The single stateful capability the
claims inspect, `assign_budget_amount`, updates the oracle state.
-/

set_option maxRecDepth 4096

/-- A Python/JSON value as delivered by the tool-call transport
(`arguments: dict | None`).  Exact rationals stand in for Python floats;
the divisions used by the code (milliunits over 1000, savings rate) are
modelled exactly. -/
inductive PyVal where
  | none
  | bool (b : Bool)
  | int (n : Int)
  | float (q : Rat)
  | str (s : String)
  | list (xs : List PyVal)
  | dict (xs : List (String × PyVal))

/-- Python truthiness (`if arguments`, `if arguments["budget_id"]`, ...). -/
def PyVal.truthy : PyVal → Bool
  | .none => false
  | .bool b => b
  | .int n => n != 0
  | .float q => q != 0
  | .str s => s ≠ ""
  | .list xs => !xs.isEmpty
  | .dict xs => !xs.isEmpty

/-- Python `len(...)`: defined for sequences, strings and mappings,
a `TypeError` (modelled as `Option.none`) otherwise. -/
def pyLen : PyVal → Option Nat
  | .list xs => some xs.length
  | .str s => some s.length
  | .dict xs => some xs.length
  | _ => Option.none

mutual

/-- Python `repr` of a value (containers rendered recursively; string
quoting uses single quotes as CPython does). -/
def pyRepr : PyVal → String
  | .none => "None"
  | .bool b => if b then "True" else "False"
  | .int n => toString n
  | .float q => toString q
  | .str s => "\x27" ++ s ++ "\x27"
  | .list xs => "[" ++ pyReprList xs ++ "]"
  | .dict xs => "\x7b" ++ pyReprDict xs ++ "\x7d"

def pyReprList : List PyVal → String
  | [] => ""
  | [x] => pyRepr x
  | x :: y :: xs => pyRepr x ++ ", " ++ pyReprList (y :: xs)

def pyReprDict : List (String × PyVal) → String
  | [] => ""
  | [(k, v)] => "\x27" ++ k ++ "\x27: " ++ pyRepr v
  | (k, v) :: y :: xs => "\x27" ++ k ++ "\x27: " ++ pyRepr v ++ ", " ++ pyReprDict (y :: xs)

end

/-- Python `str(...)` as used by f-string interpolation: strings are
rendered verbatim, everything else via `repr`. -/
def pyStr : PyVal → String
  | .str s => s
  | v => pyRepr v

mutual

/-- `json.dumps` of a value (indentation is not reproduced; the claims
never inspect this rendering beyond its existence). -/
def pyJson : PyVal → String
  | .none => "null"
  | .bool b => if b then "true" else "false"
  | .int n => toString n
  | .float q => toString q
  | .str s => "\"" ++ s ++ "\""
  | .list xs => "[" ++ pyJsonList xs ++ "]"
  | .dict xs => "\x7b" ++ pyJsonDict xs ++ "\x7d"

def pyJsonList : List PyVal → String
  | [] => ""
  | [x] => pyJson x
  | x :: y :: xs => pyJson x ++ ", " ++ pyJsonList (y :: xs)

def pyJsonDict : List (String × PyVal) → String
  | [] => ""
  | [(k, v)] => "\"" ++ k ++ "\": " ++ pyJson v
  | (k, v) :: y :: xs => "\"" ++ k ++ "\": " ++ pyJson v ++ ", " ++ pyJsonDict (y :: xs)

end

/-- A Python `dict[str, ...]` (argument mappings, overview documents).
Keys are unique in any mapping the transport or the code produces; the
first binding wins on lookup, as it does for such mappings. -/
abbrev ArgMap := List (String × PyVal)

/-- `d[k]` / `d.get(k)` on a string-keyed mapping. -/
def lookupKey : ArgMap → String → Option PyVal
  | [], _ => Option.none
  | (k, v) :: rest, key => if k = key then some v else lookupKey rest key

/-- `d[k] = v` on a string-keyed mapping: replace the binding in place
if the key exists, append otherwise (Python dict insertion semantics). -/
def setKey : ArgMap → String → PyVal → ArgMap
  | [], key, v => [(key, v)]
  | (k, w) :: rest, key, v =>
      if k = key then (key, v) :: rest else (k, w) :: setKey rest key v

theorem lookupKey_setKey_self (d : ArgMap) (k : String) (v : PyVal) :
    lookupKey (setKey d k v) k = some v := by
  induction d with
  | nil => simp [setKey, lookupKey]
  | cons hd tl ih =>
      obtain ⟨k', w⟩ := hd
      by_cases h : k' = k <;> simp [setKey, lookupKey, h, ih]

theorem lookupKey_setKey_other (d : ArgMap) (k k' : String) (v : PyVal)
    (hne : k' ≠ k) : lookupKey (setKey d k v) k' = lookupKey d k' := by
  have hkk : ¬(k = k') := fun h => hne h.symm
  induction d with
  | nil => simp [setKey, lookupKey, hkk]
  | cons hd tl ih =>
      obtain ⟨k₀, w⟩ := hd
      by_cases h : k₀ = k
      · subst h
        simp [setKey, lookupKey, hkk]
      · simp only [setKey, if_neg h, lookupKey]
        by_cases h' : k₀ = k' <;> simp [h', ih]

/-- Rounding of `a` tenths to a whole unit, half to even; used to model
CPython `.2f` formatting of `x / 1000` (exact-decimal rounding stands in
for the binary-float rounding of the interpreter). -/
def roundHalfEvenDiv10 (a : Nat) : Nat :=
  let b := a / 10
  let r := a % 10
  if r > 5 then b + 1
  else if r < 5 then b
  else if b % 2 = 0 then b else b + 1

/-- Left-pad a two-digit fractional part. -/
def pad2 (n : Nat) : String :=
  if n < 10 then "0" ++ toString n else toString n

/-- The rendering `f"..x / 1000:.2f.."` applied throughout the server to
amounts in milliunits. -/
def formatMilli (x : Int) : String :=
  let c := roundHalfEvenDiv10 x.natAbs
  (if x < 0 then "-" else "") ++ toString (c / 100) ++ "." ++ pad2 (c % 100)

example : formatMilli 0 = "0.00" := by decide
example : formatMilli 12340 = "12.34" := by decide
example : formatMilli (-800) = "-0.80" := by decide

/-- A YNAB budget summary as returned by the client. -/
structure Budget where
  id : String
  name : String

/-- A YNAB account as rendered by `list-accounts` (`acc.type` is the
account type string). -/
structure Account where
  id : String
  name : String
  balance : Int
  type : String

/-- A transaction as rendered by the listing tools (`var_date` is the
field name the generated client uses for the date). -/
structure TxnView where
  id : String
  var_date : String
  payee_name : Option String
  category_name : Option String
  account_name : String
  amount : Int

/-- A scheduled transaction as rendered by `list-scheduled-transactions`. -/
structure SchedTxnView where
  var_date : String
  payee_name : Option String
  category_name : Option String
  amount : Int
  frequency : String

/-- A payee. -/
structure Payee where
  id : String
  name : String

/-- A category inside a category group response. -/
structure Category where
  id : String
  name : String
  hidden : Bool
  budgeted : Int
  activity : Int
  balance : Int
  goal_type : Option String
  goal_target : Option Int
  goal_percentage_complete : Option Int

/-- A category group with its categories. -/
structure CategoryGroup where
  name : String
  hidden : Bool
  categories : List Category

/-- The month-category record returned by `get_month_category`. -/
structure MonthCat where
  name : String
  budgeted : Int

/-- One service-client call, with the argument values the server passes.
Raw (unvalidated) argument values are recorded as `PyVal`s exactly as
the code hands them to the client. -/
inductive SvcCall where
  | getBudgets
  | getDefaultBudget
  | getAccounts (budgetId : PyVal)
  | getTransactions (budgetId : PyVal) (accountId : String)
      (sinceDate : Option String) (limit : Option Int)
  | getMonthlyTransactions (budgetId : PyVal) (month : String) (limit : Option Int)
  | getCategories (budgetId : PyVal)
  | getPayees (budgetId : PyVal)
  | updatePayees (budgetId : PyVal) (payeeIds : PyVal) (newName : PyVal)
  | assignBudgetAmount (budgetId month categoryId amount : PyVal)
  | getMonthCategory (budgetId month categoryId : PyVal)
  | createTransaction (budgetId : PyVal) (txn : List (String × PyVal))
  | updateTransactions (budgetId : PyVal) (txns : List (List (String × PyVal)))
  | deleteTransaction (budgetId : PyVal) (transactionId : String)
  | getScheduledTransactions (budgetId : PyVal)

/-- The upstream YNAB client, modelled as an oracle: each capability
answers from this structure (the HTTP layer serializes identifiers into
request paths, so the stateful month-category table is keyed by the
string form of the identifiers the server passes). -/
structure Svc where
  budgets : List Budget
  defaultBudget : Budget
  accounts : List Account
  transactionsResp : List TxnView
  monthlyResp : List TxnView
  categories : List CategoryGroup
  payees : List Payee
  scheduled : List SchedTxnView
  monthCats : String → String → String → MonthCat
  newTxnId : String

/-- Effect of a successful `assign_budget_amount(budget_id, month,
category_id, amount)` on the oracle state: the category's budgeted
amount for that month becomes `amount` (non-integer amounts are
rejected upstream and leave the table unchanged). -/
def Svc.applyAssign (svc : Svc) (b m c : String) (amount : PyVal) : Svc :=
  match amount with
  | .int a =>
      { svc with
        monthCats := fun b' m' c' =>
          if b' = b ∧ m' = m ∧ c' = c then
            { svc.monthCats b' m' c' with budgeted := a }
          else svc.monthCats b' m' c' }
  | _ => svc

/-- Errors an invocation can raise:
`validation` for pydantic `model_validate` failures, `invalidArgs` for
the ad hoc `raise ValueError("Missing required arguments ...")` checks,
`typeError` for Python runtime type errors on raw argument values, and
`unknownTool` for the final `raise ValueError(f"Unknown tool: ...")`. -/
inductive Err where
  | validation (field : String)
  | invalidArgs (msg : String)
  | typeError
  | unknownTool (toolName : String)
deriving DecidableEq

/-- A content block (`types.TextContent | types.ImageContent |
types.EmbeddedResource`); the server only ever constructs text blocks. -/
inductive Content where
  | text (s : String)
  | image (data mimeType : String)
  | embedded (s : String)
deriving DecidableEq

/-- The overview document and its persisted state (`None` = no file on
disk yet). -/
abbrev Doc := ArgMap

/-- The state an invocation runs against: the service oracle, the
persisted overview document, and the wall-clock stamp `save_overview`
writes into `last_updated`. -/
structure DState where
  svc : Svc
  store : Option Doc
  now : String

/-- Result of one `handle_call_tool` invocation: the value returned or
the error raised, the ordered trace of service-client calls issued, and
the state after the invocation. -/
structure DResult where
  result : Except Err (List Content)
  trace : List SvcCall
  state : DState

/-- `True` iff the invocation completed without raising. -/
def DResult.isOk (r : DResult) : Bool :=
  match r.result with
  | .ok _ => true
  | .error _ => false

/-- `_get_budget_id(arguments)`: use a truthy `budget_id` argument
verbatim, otherwise fetch the default budget.  Returns the resolved id
together with the service calls made. -/
def getBudgetId (arguments : Option ArgMap) (svc : Svc) : PyVal × List SvcCall :=
  match arguments with
  | some args =>
      if args.isEmpty then (.str svc.defaultBudget.id, [.getDefaultBudget])
      else
        match lookupKey args "budget_id" with
        | some v =>
            if v.truthy then (v, [])
            else (.str svc.defaultBudget.id, [.getDefaultBudget])
        | Option.none => (.str svc.defaultBudget.id, [.getDefaultBudget])
  | Option.none => (.str svc.defaultBudget.id, [.getDefaultBudget])

theorem getBudgetId_trace_cases (arguments : Option ArgMap) (svc : Svc) :
    (getBudgetId arguments svc).2 = [] ∨
      (getBudgetId arguments svc).2 = [SvcCall.getDefaultBudget] := by
  unfold getBudgetId
  rcases arguments with _ | args
  · right; rfl
  · by_cases h : args.isEmpty
    · right; simp [h]
    · rcases hl : lookupKey args "budget_id" with _ | v
      · right; simp [h, hl]
      · by_cases ht : v.truthy <;> simp [h, hl, ht]

/-- Wrap an optional string as the value `model_dump` emits for it. -/
def optStrPv : Option String → PyVal
  | Option.none => .none
  | some s => .str s

/-- Wrap an optional integer as the value `model_dump` emits for it. -/
def optIntPv : Option Int → PyVal
  | Option.none => .none
  | some n => .int n

/-- Pydantic validation of a required `str` field: missing, `None` or
non-string values are rejected. -/
def reqStrField (args : ArgMap) (k : String) : Except Err String :=
  match lookupKey args k with
  | some (.str s) => .ok s
  | _ => .error (.validation k)

/-- Pydantic validation of a required `int` field. -/
def reqIntField (args : ArgMap) (k : String) : Except Err Int :=
  match lookupKey args k with
  | some (.int n) => .ok n
  | _ => .error (.validation k)

/-- Pydantic validation of an `Optional[str] = None` field: absent or
explicit `None` give `None`; non-string values are rejected. -/
def optStrField (args : ArgMap) (k : String) : Except Err (Option String) :=
  match lookupKey args k with
  | Option.none => .ok Option.none
  | some .none => .ok Option.none
  | some (.str s) => .ok (some s)
  | some _ => .error (.validation k)

/-- Pydantic validation of an `Optional[int] = None` field. -/
def optIntField (args : ArgMap) (k : String) : Except Err (Option Int) :=
  match lookupKey args k with
  | Option.none => .ok Option.none
  | some .none => .ok Option.none
  | some (.int n) => .ok (some n)
  | some _ => .error (.validation k)

/-- Pydantic validation of a `bool = False` field (`approved` on
`CreateTransactionInput`): absent gives the default, `None` or
non-boolean values are rejected. -/
def boolDefaultFalseField (args : ArgMap) (k : String) : Except Err Bool :=
  match lookupKey args k with
  | Option.none => .ok false
  | some (.bool b) => .ok b
  | some _ => .error (.validation k)

/-- Pydantic validation of an `Optional[bool] = None` field. -/
def optBoolField (args : ArgMap) (k : String) : Except Err (Option Bool) :=
  match lookupKey args k with
  | Option.none => .ok Option.none
  | some .none => .ok Option.none
  | some (.bool b) => .ok (some b)
  | some _ => .error (.validation k)

/-- `ListAccountsInput` (also the shape of `BudgetIdInput`). -/
structure ListAccountsInput where
  budget_id : Option String

def ListAccountsInput.parse (args : ArgMap) : Except Err ListAccountsInput := do
  let b ← optStrField args "budget_id"
  return ⟨b⟩

def ListAccountsInput.model_dump (a : ListAccountsInput) : ArgMap :=
  [("budget_id", optStrPv a.budget_id)]

/-- `ListCategoriesInput`. -/
structure ListCategoriesInput where
  budget_id : Option String

def ListCategoriesInput.parse (args : ArgMap) : Except Err ListCategoriesInput := do
  let b ← optStrField args "budget_id"
  return ⟨b⟩

def ListCategoriesInput.model_dump (a : ListCategoriesInput) : ArgMap :=
  [("budget_id", optStrPv a.budget_id)]

/-- `ListPayeesInput`. -/
structure ListPayeesInput where
  budget_id : Option String

def ListPayeesInput.parse (args : ArgMap) : Except Err ListPayeesInput := do
  let b ← optStrField args "budget_id"
  return ⟨b⟩

def ListPayeesInput.model_dump (a : ListPayeesInput) : ArgMap :=
  [("budget_id", optStrPv a.budget_id)]

/-- `ListMonthlyTransactionsInput`. -/
structure ListMonthlyTransactionsInput where
  budget_id : Option String
  month : String
  limit : Option Int

def ListMonthlyTransactionsInput.parse (args : ArgMap) :
    Except Err ListMonthlyTransactionsInput := do
  let b ← optStrField args "budget_id"
  let m ← reqStrField args "month"
  let l ← optIntField args "limit"
  return ⟨b, m, l⟩

def ListMonthlyTransactionsInput.model_dump (a : ListMonthlyTransactionsInput) : ArgMap :=
  [("budget_id", optStrPv a.budget_id), ("month", .str a.month),
   ("limit", optIntPv a.limit)]

/-- `ListTransactionsInput`. -/
structure ListTransactionsInput where
  budget_id : Option String
  account_id : String
  since_date : Option String
  limit : Option Int

def ListTransactionsInput.parse (args : ArgMap) : Except Err ListTransactionsInput := do
  let b ← optStrField args "budget_id"
  let acc ← reqStrField args "account_id"
  let sd ← optStrField args "since_date"
  let l ← optIntField args "limit"
  return ⟨b, acc, sd, l⟩

def ListTransactionsInput.model_dump (a : ListTransactionsInput) : ArgMap :=
  [("budget_id", optStrPv a.budget_id), ("account_id", .str a.account_id),
   ("since_date", optStrPv a.since_date), ("limit", optIntPv a.limit)]

/-- `CreateTransactionInput`. -/
structure CreateTransactionInput where
  budget_id : Option String
  account_id : String
  date : String
  amount : Int
  payee_id : Option String
  payee_name : Option String
  category_id : Option String
  memo : Option String
  cleared : Option String
  approved : Bool
  flag_color : Option String
  import_id : Option String

def CreateTransactionInput.parse (args : ArgMap) : Except Err CreateTransactionInput := do
  let b ← optStrField args "budget_id"
  let acc ← reqStrField args "account_id"
  let d ← reqStrField args "date"
  let amt ← reqIntField args "amount"
  let pid ← optStrField args "payee_id"
  let pname ← optStrField args "payee_name"
  let cid ← optStrField args "category_id"
  let memo ← optStrField args "memo"
  let cleared ← optStrField args "cleared"
  let approved ← boolDefaultFalseField args "approved"
  let flag ← optStrField args "flag_color"
  let imp ← optStrField args "import_id"
  return ⟨b, acc, d, amt, pid, pname, cid, memo, cleared, approved, flag, imp⟩

def CreateTransactionInput.model_dump (a : CreateTransactionInput) : ArgMap :=
  [("budget_id", optStrPv a.budget_id), ("account_id", .str a.account_id),
   ("date", .str a.date), ("amount", .int a.amount),
   ("payee_id", optStrPv a.payee_id), ("payee_name", optStrPv a.payee_name),
   ("category_id", optStrPv a.category_id), ("memo", optStrPv a.memo),
   ("cleared", optStrPv a.cleared), ("approved", .bool a.approved),
   ("flag_color", optStrPv a.flag_color), ("import_id", optStrPv a.import_id)]

/-- `TransactionUpdate` (one record of `UpdateTransactionsInput`). -/
structure TransactionUpdate where
  id : String
  account_id : Option String
  date : Option String
  amount : Option Int
  category_id : Option String
  payee_id : Option String
  memo : Option String
  cleared : Option String
  approved : Option Bool
  flag_color : Option String

def TransactionUpdate.parse (args : ArgMap) : Except Err TransactionUpdate := do
  let i ← reqStrField args "id"
  let acc ← optStrField args "account_id"
  let d ← optStrField args "date"
  let amt ← optIntField args "amount"
  let cid ← optStrField args "category_id"
  let pid ← optStrField args "payee_id"
  let memo ← optStrField args "memo"
  let cleared ← optStrField args "cleared"
  let approved ← optBoolField args "approved"
  let flag ← optStrField args "flag_color"
  return ⟨i, acc, d, amt, cid, pid, memo, cleared, approved, flag⟩

def optBoolPv : Option Bool → PyVal
  | Option.none => .none
  | some b => .bool b

def TransactionUpdate.model_dump (a : TransactionUpdate) : ArgMap :=
  [("id", .str a.id), ("account_id", optStrPv a.account_id),
   ("date", optStrPv a.date), ("amount", optIntPv a.amount),
   ("category_id", optStrPv a.category_id), ("payee_id", optStrPv a.payee_id),
   ("memo", optStrPv a.memo), ("cleared", optStrPv a.cleared),
   ("approved", optBoolPv a.approved), ("flag_color", optStrPv a.flag_color)]

/-- `UpdateTransactionsInput`. -/
structure UpdateTransactionsInput where
  budget_id : Option String
  transactions : List TransactionUpdate

/-- Validate the `transactions` list: it must be a list of mappings,
each validating as a `TransactionUpdate`. -/
def parseTxnList : List PyVal → Except Err (List TransactionUpdate)
  | [] => .ok []
  | .dict d :: rest => do
      let tx ← TransactionUpdate.parse d
      let txs ← parseTxnList rest
      return tx :: txs
  | _ :: _ => .error (.validation "transactions")

def UpdateTransactionsInput.parse (args : ArgMap) : Except Err UpdateTransactionsInput := do
  let b ← optStrField args "budget_id"
  match lookupKey args "transactions" with
  | some (.list xs) => do
      let txs ← parseTxnList xs
      return ⟨b, txs⟩
  | _ => .error (.validation "transactions")

def UpdateTransactionsInput.model_dump (a : UpdateTransactionsInput) : ArgMap :=
  [("budget_id", optStrPv a.budget_id),
   ("transactions", .list (a.transactions.map (fun tx => .dict tx.model_dump)))]

/-- `DeleteTransactionInput`. -/
structure DeleteTransactionInput where
  budget_id : Option String
  transaction_id : String

def DeleteTransactionInput.parse (args : ArgMap) : Except Err DeleteTransactionInput := do
  let b ← optStrField args "budget_id"
  let t ← reqStrField args "transaction_id"
  return ⟨b, t⟩

def DeleteTransactionInput.model_dump (a : DeleteTransactionInput) : ArgMap :=
  [("budget_id", optStrPv a.budget_id), ("transaction_id", .str a.transaction_id)]

/-- `v is None`. -/
def PyVal.isNone : PyVal → Bool
  | .none => true
  | _ => false

/-- The dictionary comprehension of the `create-transaction` branch:
keep only non-`None` values and drop `budget_id`. -/
def transactionData (args : CreateTransactionInput) : ArgMap :=
  args.model_dump.filter (fun kv => !kv.2.isNone && !(kv.1 == "budget_id"))

/-- The per-record comprehension of the `update-transactions` branch:
keep only non-`None` values. -/
def updatePayload (tx : TransactionUpdate) : ArgMap :=
  tx.model_dump.filter (fun kv => !kv.2.isNone)

/-- Concatenation of rendered fragments: the `output += ...` loop of
`list-categories`. -/
def concatStrings : List String → String
  | [] => ""
  | s :: rest => s ++ concatStrings rest

/-- `x or "N/A"` on an optional display string (`None` and the empty
string both fall back, by Python truthiness). -/
def orNA : Option String → String
  | some s => if s = "" then "N/A" else s
  | Option.none => "N/A"

/-- The goal-target rendering of `list-categories`:
`f"..." if cat.goal_target else "N/A"`, so both an unset and a zero
target render as `"N/A"` (truthiness of `Optional[int]`). -/
def goalTargetStr (c : Category) : String :=
  match c.goal_target with
  | some t => if t = 0 then "N/A" else formatMilli t
  | Option.none => "N/A"

/-- The detail line rendered for a visible category. -/
def catDetails (c : Category) : String :=
  "Budgeted: " ++ formatMilli c.budgeted ++ ", Spent: " ++
    formatMilli (c.activity.natAbs : Int) ++ ", Balance: " ++ formatMilli c.balance

/-- The goal line appended for a category with a truthy `goal_type`. -/
def goalLine (c : Category) (gt : String) : String :=
  "  - Goal (" ++ gt ++ "): Target " ++ goalTargetStr c ++ ", " ++
    toString (c.goal_percentage_complete.getD 0) ++ "% complete\n"

/-- One loop iteration of the `list-categories` body for a category:
hidden categories contribute nothing; a truthy `goal_type` appends the
goal line. -/
def renderCat (c : Category) : String :=
  if c.hidden then ""
  else
    "- " ++ c.name ++ " (ID: " ++ c.id ++ ")\n  - " ++ catDetails c ++ "\n" ++
      (match c.goal_type with
       | some gt => if gt = "" then "" else goalLine c gt
       | Option.none => "")

/-- One loop iteration of the `list-categories` body for a group:
skipped when the group is hidden or has no categories. -/
def renderGroup (g : CategoryGroup) : String :=
  if !g.hidden && !g.categories.isEmpty then
    "\n--- " ++ g.name ++ " ---\n" ++ concatStrings (g.categories.map renderCat)
  else ""

/-- The full `list-categories` output for a non-empty group list. -/
def renderCategories (gs : List CategoryGroup) : String :=
  "Here are the available categories and their status for the current month:\n" ++
    concatStrings (gs.map renderGroup)

/-- `sum(cat.budgeted for cat in group.categories if not cat.hidden)`. -/
def sumBudgeted (g : CategoryGroup) : Int :=
  ((g.categories.filter (fun c => !c.hidden)).map Category.budgeted).sum

/-- One iteration of the aggregation loop of
`refresh-financial-overview`: a matching group name OVERWRITES the
corresponding accumulator component (`fixed_bills = sum(...)`, an
assignment, not an accumulation). -/
def aggStep (acc : Int × Int × Int) (g : CategoryGroup) : Int × Int × Int :=
  if g.name = "Bills" then (sumBudgeted g, acc.2.1, acc.2.2)
  else if g.name = "Wants" then (acc.1, sumBudgeted g, acc.2.2)
  else if g.name = "Savings" then (acc.1, acc.2.1, sumBudgeted g)
  else acc

/-- The aggregation loop of `refresh-financial-overview`, producing
(fixed_bills, discretionary_spending, savings); with duplicate group
names the last one wins. -/
def monthlyAgg (gs : List CategoryGroup) : Int × Int × Int :=
  gs.foldl aggStep (0, 0, 0)

/-- `savings_rate = (savings / total_budgeted * 100) if total_budgeted > 0
else 0`. -/
def savingsRate (fb ds sv : Int) : Rat :=
  if fb + ds + sv > 0 then (sv : Rat) / ((fb + ds + sv : Int) : Rat) * 100 else 0

/-- Modelled from the spec: the Overview Store (`ynab_client.notes`) is
code of this repository that is not under `src/`.  Per §4.2, `load()`
returns an empty/default document when none exists and never fails for
not-found. -/
def load_overview (store : Option Doc) : Doc :=
  store.getD []

/-- Modelled from the spec: per §4.2, `save(document)` writes the whole
document and stamps `last_updated`; `now` is the wall-clock stamp. -/
def save_overview (now : String) (d : Doc) : Option Doc :=
  some (setKey d "last_updated" (.str now))

/-- Modelled from the spec: per §4.2, `update_section(name, data)` is
load, replace/insert the named top-level key with `data`, save. -/
def update_overview_section (store : Option Doc) (now sec : String) (data : PyVal) :
    Option Doc :=
  save_overview now (setKey (load_overview store) sec data)

/-- A successful return of a single text block. -/
def okText (s : String) (tr : List SvcCall) (st : DState) : DResult :=
  ⟨.ok [Content.text s], tr, st⟩

/-- A raised error. -/
def errResult (e : Err) (tr : List SvcCall) (st : DState) : DResult :=
  ⟨.error e, tr, st⟩

/-- The `list-budgets` branch. -/
def handleListBudgets (st : DState) : DResult :=
  let budgets := st.svc.budgets
  let tr := [SvcCall.getBudgets]
  if budgets.isEmpty then okText "No budgets found." tr st
  else
    okText ("Here are your available budgets:\n" ++
      String.intercalate "\n" (budgets.map (fun b =>
        "- " ++ b.name ++ " (ID: " ++ b.id ++ ")"))) tr st

/-- The `list-accounts` branch. -/
def handleListAccounts (arguments : Option ArgMap) (st : DState) : DResult :=
  match ListAccountsInput.parse (arguments.getD []) with
  | .error e => errResult e [] st
  | .ok args =>
      let r := getBudgetId (some args.model_dump) st.svc
      let accounts := st.svc.accounts
      let tr := r.2 ++ [SvcCall.getAccounts r.1]
      if accounts.isEmpty then okText "No accounts found for this budget." tr st
      else
        okText ("Here are the accounts for budget " ++ pyStr r.1 ++ ":\n" ++
          String.intercalate "\n" (accounts.map (fun a =>
            "- " ++ a.name ++ " (ID: " ++ a.id ++ "): " ++ formatMilli a.balance ++
              " (Type: " ++ a.type ++ ")"))) tr st

/-- The `list-transactions` branch. -/
def handleListTransactions (arguments : Option ArgMap) (st : DState) : DResult :=
  match ListTransactionsInput.parse (arguments.getD []) with
  | .error e => errResult e [] st
  | .ok args =>
      let r := getBudgetId (some args.model_dump) st.svc
      let transactions := st.svc.transactionsResp
      let tr := r.2 ++ [SvcCall.getTransactions r.1 args.account_id args.since_date args.limit]
      if transactions.isEmpty then okText "No transactions found for this account." tr st
      else
        okText ("Here are the latest transactions:\n" ++
          String.intercalate "\n" (transactions.map (fun t =>
            "- " ++ t.var_date ++ ": " ++ orNA t.payee_name ++ " | " ++
              orNA t.category_name ++ " | " ++ formatMilli t.amount ++
              " (ID: " ++ t.id ++ ")"))) tr st

/-- The `list-monthly-transactions` branch. -/
def handleListMonthlyTransactions (arguments : Option ArgMap) (st : DState) : DResult :=
  match ListMonthlyTransactionsInput.parse (arguments.getD []) with
  | .error e => errResult e [] st
  | .ok args =>
      let r := getBudgetId (some args.model_dump) st.svc
      let transactions := st.svc.monthlyResp
      let tr := r.2 ++ [SvcCall.getMonthlyTransactions r.1 args.month args.limit]
      if transactions.isEmpty then okText "No transactions found for this month." tr st
      else
        okText ("Here are the transactions for " ++ args.month ++ ":\n" ++
          String.intercalate "\n" (transactions.map (fun t =>
            "- " ++ t.var_date ++ ": " ++ orNA t.payee_name ++ " | " ++
              orNA t.category_name ++ " | " ++ t.account_name ++ " | " ++
              formatMilli t.amount ++ " (ID: " ++ t.id ++ ")"))) tr st

/-- The `list-categories` branch. -/
def handleListCategories (arguments : Option ArgMap) (st : DState) : DResult :=
  match ListCategoriesInput.parse (arguments.getD []) with
  | .error e => errResult e [] st
  | .ok args =>
      let r := getBudgetId (some args.model_dump) st.svc
      let groups := st.svc.categories
      let tr := r.2 ++ [SvcCall.getCategories r.1]
      if groups.isEmpty then okText "No categories found for this budget." tr st
      else okText (renderCategories groups) tr st

/-- The `list-payees` branch. -/
def handleListPayees (arguments : Option ArgMap) (st : DState) : DResult :=
  match ListPayeesInput.parse (arguments.getD []) with
  | .error e => errResult e [] st
  | .ok args =>
      let r := getBudgetId (some args.model_dump) st.svc
      let payees := st.svc.payees
      let tr := r.2 ++ [SvcCall.getPayees r.1]
      if payees.isEmpty then okText "No payees found for this budget." tr st
      else
        okText ("Here are the payees for budget " ++ pyStr r.1 ++ ":\n" ++
          String.intercalate "\n" (payees.map (fun p =>
            "- " ++ p.name ++ " (ID: " ++ p.id ++ ")"))) tr st

/-- The `rename-payees` branch (ad hoc required-key check). -/
def handleRenamePayees (arguments : Option ArgMap) (st : DState) : DResult :=
  match arguments with
  | Option.none =>
      errResult (.invalidArgs "Missing required arguments payee_ids and name") [] st
  | some args =>
      if args.isEmpty || (lookupKey args "payee_ids").isNone ||
          (lookupKey args "name").isNone then
        errResult (.invalidArgs "Missing required arguments payee_ids and name") [] st
      else
        let r := getBudgetId (some args) st.svc
        let payeeIds := (lookupKey args "payee_ids").getD .none
        let newName := (lookupKey args "name").getD .none
        let tr := r.2 ++ [SvcCall.updatePayees r.1 payeeIds newName]
        match pyLen payeeIds with
        | some n =>
            okText ("Successfully renamed " ++ toString n ++ " payees to \x27" ++
              pyStr newName ++ "\x27.") tr st
        | Option.none => errResult .typeError tr st

/-- The `assign-budget-amount` branch (ad hoc required-key check).  The
f-string formatting of a non-integer raw `amount` is modelled as a
runtime type error; the claims quantify over integer amounts. -/
def handleAssignBudgetAmount (arguments : Option ArgMap) (st : DState) : DResult :=
  match arguments with
  | Option.none => errResult (.invalidArgs "Missing required arguments") [] st
  | some args =>
      if args.isEmpty || (lookupKey args "month").isNone ||
          (lookupKey args "category_id").isNone ||
          (lookupKey args "amount").isNone then
        errResult (.invalidArgs "Missing required arguments") [] st
      else
        let r := getBudgetId (some args) st.svc
        let month := (lookupKey args "month").getD .none
        let categoryId := (lookupKey args "category_id").getD .none
        let amount := (lookupKey args "amount").getD .none
        let svc1 := st.svc.applyAssign (pyStr r.1) (pyStr month) (pyStr categoryId) amount
        let st1 := { st with svc := svc1 }
        let tr := r.2 ++ [SvcCall.assignBudgetAmount r.1 month categoryId amount]
        match amount with
        | .int a =>
            okText ("Successfully assigned " ++ formatMilli a ++ " to category " ++
              pyStr categoryId ++ " for " ++ pyStr month ++ ".") tr st1
        | _ => errResult .typeError tr st1

/-- The `create-transaction` branch. -/
def handleCreateTransaction (arguments : Option ArgMap) (st : DState) : DResult :=
  match CreateTransactionInput.parse (arguments.getD []) with
  | .error e => errResult e [] st
  | .ok args =>
      let r := getBudgetId (some args.model_dump) st.svc
      let tr := r.2 ++ [SvcCall.createTransaction r.1 (transactionData args)]
      okText ("Successfully created transaction with ID: " ++ st.svc.newTxnId) tr st

/-- The `update-transactions` branch. -/
def handleUpdateTransactions (arguments : Option ArgMap) (st : DState) : DResult :=
  match UpdateTransactionsInput.parse (arguments.getD []) with
  | .error e => errResult e [] st
  | .ok args =>
      let r := getBudgetId (some args.model_dump) st.svc
      let tr := r.2 ++ [SvcCall.updateTransactions r.1 (args.transactions.map updatePayload)]
      okText ("Successfully updated " ++ toString args.transactions.length ++
        " transactions.") tr st

/-- The `delete-transaction` branch. -/
def handleDeleteTransaction (arguments : Option ArgMap) (st : DState) : DResult :=
  match DeleteTransactionInput.parse (arguments.getD []) with
  | .error e => errResult e [] st
  | .ok args =>
      let r := getBudgetId (some args.model_dump) st.svc
      let tr := r.2 ++ [SvcCall.deleteTransaction r.1 args.transaction_id]
      okText ("Successfully deleted transaction " ++ args.transaction_id ++ ".") tr st

/-- The `move-budget-amount` branch: read both month categories, then
two sequential assigns (`from` first, then `to`).  A non-integer raw
`amount` raises only when first used in arithmetic, i.e. after both
reads. -/
def handleMoveBudgetAmount (arguments : Option ArgMap) (st : DState) : DResult :=
  match arguments with
  | Option.none => errResult (.invalidArgs "Missing required arguments") [] st
  | some args =>
      if args.isEmpty || (lookupKey args "month").isNone ||
          (lookupKey args "from_category_id").isNone ||
          (lookupKey args "to_category_id").isNone ||
          (lookupKey args "amount").isNone then
        errResult (.invalidArgs "Missing required arguments") [] st
      else
        let r := getBudgetId (some args) st.svc
        let month := (lookupKey args "month").getD .none
        let fromId := (lookupKey args "from_category_id").getD .none
        let toId := (lookupKey args "to_category_id").getD .none
        let amountToMove := (lookupKey args "amount").getD .none
        let fromCat := st.svc.monthCats (pyStr r.1) (pyStr month) (pyStr fromId)
        let toCat := st.svc.monthCats (pyStr r.1) (pyStr month) (pyStr toId)
        let tr1 := r.2 ++ [SvcCall.getMonthCategory r.1 month fromId,
                           SvcCall.getMonthCategory r.1 month toId]
        match amountToMove with
        | .int a =>
            let newFrom := fromCat.budgeted - a
            let newTo := toCat.budgeted + a
            let svc1 := st.svc.applyAssign (pyStr r.1) (pyStr month) (pyStr fromId) (.int newFrom)
            let svc2 := svc1.applyAssign (pyStr r.1) (pyStr month) (pyStr toId) (.int newTo)
            let tr := tr1 ++ [SvcCall.assignBudgetAmount r.1 month fromId (.int newFrom),
                              SvcCall.assignBudgetAmount r.1 month toId (.int newTo)]
            okText ("Successfully moved " ++ formatMilli a ++ " from category " ++
              fromCat.name ++ " to " ++ toCat.name ++ " for " ++ pyStr month ++ ".")
              tr { st with svc := svc2 }
        | _ => errResult .typeError tr1 st

/-- The `list-scheduled-transactions` branch (no validation at all). -/
def handleListScheduledTransactions (arguments : Option ArgMap) (st : DState) : DResult :=
  let r := getBudgetId arguments st.svc
  let transactions := st.svc.scheduled
  let tr := r.2 ++ [SvcCall.getScheduledTransactions r.1]
  if transactions.isEmpty then okText "No scheduled transactions found." tr st
  else
    okText ("Here are the scheduled transactions:\n" ++
      String.intercalate "\n" (transactions.map (fun t =>
        "- " ++ t.var_date ++ ": " ++ orNA t.payee_name ++ " | " ++
          orNA t.category_name ++ " | " ++ formatMilli t.amount ++
          " (Frequency: " ++ t.frequency ++ ")"))) tr st

/-- The `get-financial-overview` branch. -/
def handleGetFinancialOverview (st : DState) : DResult :=
  let overview := load_overview st.store
  let lastUpdated :=
    match lookupKey overview "last_updated" with
    | some v => pyStr v
    | Option.none => "Never"
  okText ("Financial Overview (Last Updated: " ++ lastUpdated ++ "):\n\n" ++
    pyJson (.dict overview)) [] st

/-- The `update-financial-overview-section` branch (ad hoc required-key
check, then a store write; no service call).  Section names are strings
per the tool schema; a non-string raw value is keyed by its string
form. -/
def handleUpdateFinancialOverviewSection (arguments : Option ArgMap) (st : DState) : DResult :=
  match arguments with
  | Option.none =>
      errResult (.invalidArgs "Missing required arguments section and data") [] st
  | some args =>
      if args.isEmpty || (lookupKey args "section").isNone ||
          (lookupKey args "data").isNone then
        errResult (.invalidArgs "Missing required arguments section and data") [] st
      else
        let sec := (lookupKey args "section").getD .none
        let data := (lookupKey args "data").getD .none
        let store1 := update_overview_section st.store st.now (pyStr sec) data
        okText ("Successfully updated the " ++ pyStr sec ++
          " section of the financial overview.") [] { st with store := store1 }

/-- The `refresh-financial-overview` branch. -/
def handleRefreshFinancialOverview (arguments : Option ArgMap) (st : DState) : DResult :=
  let r := getBudgetId arguments st.svc
  let accountBalances : Doc :=
    st.svc.accounts.foldl (fun d a => setKey d a.name (.float ((a.balance : Rat) / 1000))) []
  let agg := monthlyAgg st.svc.categories
  let rate := savingsRate agg.1 agg.2.1 agg.2.2
  let overview := load_overview st.store
  let o1 := setKey overview "account_balances" (.dict accountBalances)
  let o2 := setKey o1 "monthly_overview" (.dict
    [("fixed_bills", .float ((agg.1 : Rat) / 1000)),
     ("discretionary_spending", .float ((agg.2.1 : Rat) / 1000)),
     ("savings_rate", .float rate)])
  let tr := r.2 ++ [SvcCall.getAccounts r.1, SvcCall.getCategories r.1]
  okText "Successfully refreshed the financial overview with latest YNAB data."
    tr { st with store := save_overview st.now o2 }

/-- `handle_call_tool(name, arguments)`: the elif chain of the
dispatcher, in source order, ending in `raise ValueError(f"Unknown
tool: ...")`. -/
def handle_call_tool (name : String) (arguments : Option ArgMap) (st : DState) : DResult :=
  if name = "list-budgets" then handleListBudgets st
  else if name = "list-accounts" then handleListAccounts arguments st
  else if name = "list-transactions" then handleListTransactions arguments st
  else if name = "list-monthly-transactions" then handleListMonthlyTransactions arguments st
  else if name = "list-categories" then handleListCategories arguments st
  else if name = "list-payees" then handleListPayees arguments st
  else if name = "rename-payees" then handleRenamePayees arguments st
  else if name = "assign-budget-amount" then handleAssignBudgetAmount arguments st
  else if name = "create-transaction" then handleCreateTransaction arguments st
  else if name = "update-transactions" then handleUpdateTransactions arguments st
  else if name = "delete-transaction" then handleDeleteTransaction arguments st
  else if name = "move-budget-amount" then handleMoveBudgetAmount arguments st
  else if name = "list-scheduled-transactions" then handleListScheduledTransactions arguments st
  else if name = "get-financial-overview" then handleGetFinancialOverview st
  else if name = "update-financial-overview-section" then
    handleUpdateFinancialOverviewSection arguments st
  else if name = "refresh-financial-overview" then handleRefreshFinancialOverview arguments st
  else errResult (.unknownTool name) [] st

/-- A small month-category table used by the concrete test states. -/
def mcat0 : String → String → String → MonthCat := fun _ _ c =>
  if c = "catA" then ⟨"Groceries", 1000⟩
  else if c = "catB" then ⟨"Dining", 500⟩
  else ⟨"Other", 0⟩

/-- A concrete service oracle with empty listings. -/
def svc0 : Svc where
  budgets := [⟨"b1", "Family"⟩]
  defaultBudget := ⟨"bdef", "Default Budget"⟩
  accounts := []
  transactionsResp := []
  monthlyResp := []
  categories := []
  payees := []
  scheduled := []
  monthCats := mcat0
  newTxnId := "txn-new-1"

/-- A concrete service oracle whose every listing is empty. -/
def svcEmpty : Svc where
  budgets := []
  defaultBudget := ⟨"bdef", "Default Budget"⟩
  accounts := []
  transactionsResp := []
  monthlyResp := []
  categories := []
  payees := []
  scheduled := []
  monthCats := mcat0
  newTxnId := "txn-new-1"

/-- A concrete dispatcher state. -/
def st0 : DState := ⟨svc0, Option.none, "2026-10-12T00:00:00Z"⟩

/-- A concrete dispatcher state with an all-empty service. -/
def stEmpty : DState := ⟨svcEmpty, Option.none, "2026-10-12T00:00:00Z"⟩

/-- Concrete `move-budget-amount` arguments. -/
def moveArgs0 : ArgMap :=
  [("month", .str "2024-01-01"), ("from_category_id", .str "catA"),
   ("to_category_id", .str "catB"), ("amount", .int 200)]

example :
    (handle_call_tool "move-budget-amount" (some moveArgs0) st0).result =
      .ok [Content.text
        "Successfully moved 0.20 from category Groceries to Dining for 2024-01-01."] := rfl

example :
    (handle_call_tool "move-budget-amount" (some moveArgs0) st0).trace =
      [SvcCall.getDefaultBudget,
       SvcCall.getMonthCategory (.str "bdef") (.str "2024-01-01") (.str "catA"),
       SvcCall.getMonthCategory (.str "bdef") (.str "2024-01-01") (.str "catB"),
       SvcCall.assignBudgetAmount (.str "bdef") (.str "2024-01-01") (.str "catA") (.int 800),
       SvcCall.assignBudgetAmount (.str "bdef") (.str "2024-01-01") (.str "catB") (.int 700)] := rfl

example :
    ((handle_call_tool "move-budget-amount" (some moveArgs0) st0).state.svc.monthCats
      "bdef" "2024-01-01" "catA").budgeted = 800 := rfl

example :
    (handle_call_tool "list-budgets" Option.none stEmpty).result =
      .ok [Content.text "No budgets found."] := rfl

example :
    (handle_call_tool "list-budgets" Option.none st0).result =
      .ok [Content.text "Here are your available budgets:\n- Family (ID: b1)"] := rfl

example :
    (handle_call_tool "rename-payees" (some [("payee_ids", .list []), ("name", .str "X")])
      st0).result =
      .ok [Content.text "Successfully renamed 0 payees to \x27X\x27."] := rfl

example :
    (handle_call_tool "rename-payees" (some [("name", .str "X")]) st0).result =
      .error (.invalidArgs "Missing required arguments payee_ids and name") := rfl

example :
    (handle_call_tool "bogus-tool" Option.none st0).result =
      .error (.unknownTool "bogus-tool") := rfl

/-- Is this call the default-budget lookup? -/
def isDefaultCall : SvcCall → Bool
  | .getDefaultBudget => true
  | _ => false

/-- No default-budget lookup occurs in the trace. -/
def noDefaultCall (t : List SvcCall) : Bool :=
  t.all (fun c => !isDefaultCall c)

/-- Budget resolution happens first: once any other service call has
been issued, no default-budget lookup follows. -/
def resolutionFirst : List SvcCall → Bool
  | [] => true
  | c :: rest => if isDefaultCall c then resolutionFirst rest else noDefaultCall rest

theorem noDefaultCall_resolutionFirst (t : List SvcCall)
    (h : noDefaultCall t = true) : resolutionFirst t = true := by
  cases t with
  | nil => rfl
  | cons c rest =>
      simp only [noDefaultCall, List.all_cons, Bool.and_eq_true, Bool.not_eq_true'] at h
      simp [resolutionFirst, h.1, noDefaultCall, h.2]

theorem resolutionFirst_append (r cs : List SvcCall)
    (hr : r = [] ∨ r = [SvcCall.getDefaultBudget])
    (hcs : noDefaultCall cs = true) : resolutionFirst (r ++ cs) = true := by
  rcases hr with h | h <;> subst h
  · exact noDefaultCall_resolutionFirst cs hcs
  · simpa [resolutionFirst, isDefaultCall] using noDefaultCall_resolutionFirst cs hcs

theorem okText_shape (s : String) (tr : List SvcCall) (st : DState) :
    ∀ out, (okText s tr st).result = Except.ok out → ∃ m, out = [Content.text m] := by
  intro out h
  simp only [okText] at h
  exact ⟨s, by injection h with h2; exact h2.symm⟩

theorem errResult_not_ok (e : Err) (tr : List SvcCall) (st : DState) :
    ∀ out, (errResult e tr st).result = Except.ok out → ∃ m, out = [Content.text m] := by
  intro out h
  simp [errResult] at h

theorem handleListBudgets_shape (st : DState) :
    resolutionFirst (handleListBudgets st).trace = true ∧
      ∀ out, (handleListBudgets st).result = Except.ok out →
        ∃ s, out = [Content.text s] := by
  unfold handleListBudgets
  constructor
  · dsimp only [okText]
    split <;> rfl
  · dsimp only [okText]
    split <;> exact okText_shape _ _ _

theorem handleListAccounts_shape (arguments : Option ArgMap) (st : DState) :
    resolutionFirst (handleListAccounts arguments st).trace = true ∧
      ∀ out, (handleListAccounts arguments st).result = Except.ok out →
        ∃ s, out = [Content.text s] := by
  unfold handleListAccounts
  constructor
  · split
    · rfl
    · dsimp only [okText]
      split <;>
        exact resolutionFirst_append _ _ (getBudgetId_trace_cases _ _)
          (by simp [noDefaultCall, isDefaultCall])
  · split
    · exact errResult_not_ok _ _ _
    · dsimp only [okText]
      split <;> exact okText_shape _ _ _

theorem handleListTransactions_shape (arguments : Option ArgMap) (st : DState) :
    resolutionFirst (handleListTransactions arguments st).trace = true ∧
      ∀ out, (handleListTransactions arguments st).result = Except.ok out →
        ∃ s, out = [Content.text s] := by
  unfold handleListTransactions
  constructor
  · split
    · rfl
    · dsimp only [okText]
      split <;>
        exact resolutionFirst_append _ _ (getBudgetId_trace_cases _ _)
          (by simp [noDefaultCall, isDefaultCall])
  · split
    · exact errResult_not_ok _ _ _
    · dsimp only [okText]
      split <;> exact okText_shape _ _ _

theorem handleListMonthlyTransactions_shape (arguments : Option ArgMap) (st : DState) :
    resolutionFirst (handleListMonthlyTransactions arguments st).trace = true ∧
      ∀ out, (handleListMonthlyTransactions arguments st).result = Except.ok out →
        ∃ s, out = [Content.text s] := by
  unfold handleListMonthlyTransactions
  constructor
  · split
    · rfl
    · dsimp only [okText]
      split <;>
        exact resolutionFirst_append _ _ (getBudgetId_trace_cases _ _)
          (by simp [noDefaultCall, isDefaultCall])
  · split
    · exact errResult_not_ok _ _ _
    · dsimp only [okText]
      split <;> exact okText_shape _ _ _

theorem handleListCategories_shape (arguments : Option ArgMap) (st : DState) :
    resolutionFirst (handleListCategories arguments st).trace = true ∧
      ∀ out, (handleListCategories arguments st).result = Except.ok out →
        ∃ s, out = [Content.text s] := by
  unfold handleListCategories
  constructor
  · split
    · rfl
    · dsimp only [okText]
      split <;>
        exact resolutionFirst_append _ _ (getBudgetId_trace_cases _ _)
          (by simp [noDefaultCall, isDefaultCall])
  · split
    · exact errResult_not_ok _ _ _
    · dsimp only [okText]
      split <;> exact okText_shape _ _ _

theorem handleListPayees_shape (arguments : Option ArgMap) (st : DState) :
    resolutionFirst (handleListPayees arguments st).trace = true ∧
      ∀ out, (handleListPayees arguments st).result = Except.ok out →
        ∃ s, out = [Content.text s] := by
  unfold handleListPayees
  constructor
  · split
    · rfl
    · dsimp only [okText]
      split <;>
        exact resolutionFirst_append _ _ (getBudgetId_trace_cases _ _)
          (by simp [noDefaultCall, isDefaultCall])
  · split
    · exact errResult_not_ok _ _ _
    · dsimp only [okText]
      split <;> exact okText_shape _ _ _

theorem handleRenamePayees_shape (arguments : Option ArgMap) (st : DState) :
    resolutionFirst (handleRenamePayees arguments st).trace = true ∧
      ∀ out, (handleRenamePayees arguments st).result = Except.ok out →
        ∃ s, out = [Content.text s] := by
  unfold handleRenamePayees
  constructor
  · dsimp only [okText, errResult]
    repeat' split
    all_goals
      first
      | rfl
      | exact resolutionFirst_append _ _ (getBudgetId_trace_cases _ _)
          (by simp [noDefaultCall, isDefaultCall])
  · dsimp only [okText, errResult]
    repeat' split
    all_goals intro out h
    all_goals try dsimp only at h
    all_goals
      first
      | (injection h with h2; exact ⟨_, h2.symm⟩)
      | injection h

theorem handleAssignBudgetAmount_shape (arguments : Option ArgMap) (st : DState) :
    resolutionFirst (handleAssignBudgetAmount arguments st).trace = true ∧
      ∀ out, (handleAssignBudgetAmount arguments st).result = Except.ok out →
        ∃ s, out = [Content.text s] := by
  unfold handleAssignBudgetAmount
  constructor
  · dsimp only [okText, errResult]
    repeat' split
    all_goals
      first
      | rfl
      | exact resolutionFirst_append _ _ (getBudgetId_trace_cases _ _)
          (by simp [noDefaultCall, isDefaultCall])
  · dsimp only [okText, errResult]
    repeat' split
    all_goals intro out h
    all_goals try dsimp only at h
    all_goals
      first
      | (injection h with h2; exact ⟨_, h2.symm⟩)
      | injection h

theorem handleCreateTransaction_shape (arguments : Option ArgMap) (st : DState) :
    resolutionFirst (handleCreateTransaction arguments st).trace = true ∧
      ∀ out, (handleCreateTransaction arguments st).result = Except.ok out →
        ∃ s, out = [Content.text s] := by
  unfold handleCreateTransaction
  constructor
  · dsimp only [okText, errResult]
    repeat' split
    all_goals
      first
      | rfl
      | exact resolutionFirst_append _ _ (getBudgetId_trace_cases _ _)
          (by simp [noDefaultCall, isDefaultCall])
  · dsimp only [okText, errResult]
    repeat' split
    all_goals intro out h
    all_goals try dsimp only at h
    all_goals
      first
      | (injection h with h2; exact ⟨_, h2.symm⟩)
      | injection h

theorem handleUpdateTransactions_shape (arguments : Option ArgMap) (st : DState) :
    resolutionFirst (handleUpdateTransactions arguments st).trace = true ∧
      ∀ out, (handleUpdateTransactions arguments st).result = Except.ok out →
        ∃ s, out = [Content.text s] := by
  unfold handleUpdateTransactions
  constructor
  · dsimp only [okText, errResult]
    repeat' split
    all_goals
      first
      | rfl
      | exact resolutionFirst_append _ _ (getBudgetId_trace_cases _ _)
          (by simp [noDefaultCall, isDefaultCall])
  · dsimp only [okText, errResult]
    repeat' split
    all_goals intro out h
    all_goals try dsimp only at h
    all_goals
      first
      | (injection h with h2; exact ⟨_, h2.symm⟩)
      | injection h

theorem handleDeleteTransaction_shape (arguments : Option ArgMap) (st : DState) :
    resolutionFirst (handleDeleteTransaction arguments st).trace = true ∧
      ∀ out, (handleDeleteTransaction arguments st).result = Except.ok out →
        ∃ s, out = [Content.text s] := by
  unfold handleDeleteTransaction
  constructor
  · dsimp only [okText, errResult]
    repeat' split
    all_goals
      first
      | rfl
      | exact resolutionFirst_append _ _ (getBudgetId_trace_cases _ _)
          (by simp [noDefaultCall, isDefaultCall])
  · dsimp only [okText, errResult]
    repeat' split
    all_goals intro out h
    all_goals try dsimp only at h
    all_goals
      first
      | (injection h with h2; exact ⟨_, h2.symm⟩)
      | injection h

theorem handleMoveBudgetAmount_shape (arguments : Option ArgMap) (st : DState) :
    resolutionFirst (handleMoveBudgetAmount arguments st).trace = true ∧
      ∀ out, (handleMoveBudgetAmount arguments st).result = Except.ok out →
        ∃ s, out = [Content.text s] := by
  unfold handleMoveBudgetAmount
  constructor
  · dsimp only [okText, errResult]
    repeat' split
    all_goals
      first
      | rfl
      | exact resolutionFirst_append _ _ (getBudgetId_trace_cases _ _)
          (by simp [noDefaultCall, isDefaultCall])
      | (rw [List.append_assoc]
         exact resolutionFirst_append _ _ (getBudgetId_trace_cases _ _)
           (by simp [noDefaultCall, isDefaultCall]))
  · dsimp only [okText, errResult]
    repeat' split
    all_goals intro out h
    all_goals try dsimp only at h
    all_goals
      first
      | (injection h with h2; exact ⟨_, h2.symm⟩)
      | injection h

theorem handleListScheduledTransactions_shape (arguments : Option ArgMap) (st : DState) :
    resolutionFirst (handleListScheduledTransactions arguments st).trace = true ∧
      ∀ out, (handleListScheduledTransactions arguments st).result = Except.ok out →
        ∃ s, out = [Content.text s] := by
  unfold handleListScheduledTransactions
  constructor
  · dsimp only [okText, errResult]
    repeat' split
    all_goals
      first
      | rfl
      | exact resolutionFirst_append _ _ (getBudgetId_trace_cases _ _)
          (by simp [noDefaultCall, isDefaultCall])
  · dsimp only [okText, errResult]
    repeat' split
    all_goals intro out h
    all_goals try dsimp only at h
    all_goals
      first
      | (injection h with h2; exact ⟨_, h2.symm⟩)
      | injection h

theorem handleGetFinancialOverview_shape (st : DState) :
    resolutionFirst (handleGetFinancialOverview st).trace = true ∧
      ∀ out, (handleGetFinancialOverview st).result = Except.ok out →
        ∃ s, out = [Content.text s] := by
  unfold handleGetFinancialOverview
  constructor
  · dsimp only [okText, errResult]
    repeat' split
    all_goals rfl
  · dsimp only [okText, errResult]
    intro out h
    try dsimp only at h
    injection h with h2
    exact ⟨_, h2.symm⟩

theorem handleUpdateFinancialOverviewSection_shape (arguments : Option ArgMap) (st : DState) :
    resolutionFirst (handleUpdateFinancialOverviewSection arguments st).trace = true ∧
      ∀ out, (handleUpdateFinancialOverviewSection arguments st).result = Except.ok out →
        ∃ s, out = [Content.text s] := by
  unfold handleUpdateFinancialOverviewSection
  constructor
  · dsimp only [okText, errResult]
    repeat' split
    all_goals rfl
  · dsimp only [okText, errResult]
    repeat' split
    all_goals intro out h
    all_goals try dsimp only at h
    all_goals
      first
      | (injection h with h2; exact ⟨_, h2.symm⟩)
      | injection h

theorem handleRefreshFinancialOverview_shape (arguments : Option ArgMap) (st : DState) :
    resolutionFirst (handleRefreshFinancialOverview arguments st).trace = true ∧
      ∀ out, (handleRefreshFinancialOverview arguments st).result = Except.ok out →
        ∃ s, out = [Content.text s] := by
  unfold handleRefreshFinancialOverview
  constructor
  · dsimp only [okText, errResult]
    exact resolutionFirst_append _ _ (getBudgetId_trace_cases _ _)
      (by simp [noDefaultCall, isDefaultCall])
  · dsimp only [okText, errResult]
    intro out h
    try dsimp only at h
    injection h with h2
    exact ⟨_, h2.symm⟩

theorem unknownTool_shape (e : Err) (st : DState) :
    resolutionFirst (errResult e [] st).trace = true ∧
      ∀ out, (errResult e [] st).result = Except.ok out →
        ∃ s, out = [Content.text s] := by
  refine ⟨rfl, fun out h => ?_⟩
  simp [errResult] at h

theorem handle_call_tool_shape (name : String) (arguments : Option ArgMap) (st : DState) :
    resolutionFirst (handle_call_tool name arguments st).trace = true ∧
      ∀ out, (handle_call_tool name arguments st).result = Except.ok out →
        ∃ s, out = [Content.text s] := by
  unfold handle_call_tool
  by_cases h1 : name = "list-budgets"
  · rw [if_pos h1]; exact handleListBudgets_shape st
  rw [if_neg h1]
  by_cases h2 : name = "list-accounts"
  · rw [if_pos h2]; exact handleListAccounts_shape arguments st
  rw [if_neg h2]
  by_cases h3 : name = "list-transactions"
  · rw [if_pos h3]; exact handleListTransactions_shape arguments st
  rw [if_neg h3]
  by_cases h4 : name = "list-monthly-transactions"
  · rw [if_pos h4]; exact handleListMonthlyTransactions_shape arguments st
  rw [if_neg h4]
  by_cases h5 : name = "list-categories"
  · rw [if_pos h5]; exact handleListCategories_shape arguments st
  rw [if_neg h5]
  by_cases h6 : name = "list-payees"
  · rw [if_pos h6]; exact handleListPayees_shape arguments st
  rw [if_neg h6]
  by_cases h7 : name = "rename-payees"
  · rw [if_pos h7]; exact handleRenamePayees_shape arguments st
  rw [if_neg h7]
  by_cases h8 : name = "assign-budget-amount"
  · rw [if_pos h8]; exact handleAssignBudgetAmount_shape arguments st
  rw [if_neg h8]
  by_cases h9 : name = "create-transaction"
  · rw [if_pos h9]; exact handleCreateTransaction_shape arguments st
  rw [if_neg h9]
  by_cases h10 : name = "update-transactions"
  · rw [if_pos h10]; exact handleUpdateTransactions_shape arguments st
  rw [if_neg h10]
  by_cases h11 : name = "delete-transaction"
  · rw [if_pos h11]; exact handleDeleteTransaction_shape arguments st
  rw [if_neg h11]
  by_cases h12 : name = "move-budget-amount"
  · rw [if_pos h12]; exact handleMoveBudgetAmount_shape arguments st
  rw [if_neg h12]
  by_cases h13 : name = "list-scheduled-transactions"
  · rw [if_pos h13]; exact handleListScheduledTransactions_shape arguments st
  rw [if_neg h13]
  by_cases h14 : name = "get-financial-overview"
  · rw [if_pos h14]; exact handleGetFinancialOverview_shape st
  rw [if_neg h14]
  by_cases h15 : name = "update-financial-overview-section"
  · rw [if_pos h15]; exact handleUpdateFinancialOverviewSection_shape arguments st
  rw [if_neg h15]
  by_cases h16 : name = "refresh-financial-overview"
  · rw [if_pos h16]; exact handleRefreshFinancialOverview_shape arguments st
  rw [if_neg h16]
  exact unknownTool_shape _ st

/-- Is this call an `assign_budget_amount`? -/
def isAssignCall : SvcCall → Bool
  | .assignBudgetAmount _ _ _ _ => true
  | _ => false

/-- C1: a tool invocation whose argument mapping carries a truthy
(non-empty) `budget_id` resolves to exactly that value and never
triggers the default-budget lookup; with `budget_id` absent or falsy
the resolved id is the id of the budget returned by
`get_default_budget`; and in every invocation any default-budget lookup
precedes all other (mutating or listing) service calls. -/
theorem c1_budget_resolution (args : ArgMap) (svc : Svc) :
    (∀ v, lookupKey args "budget_id" = some v → v.truthy = true →
        getBudgetId (some args) svc = (v, [])) ∧
    ((∀ v, lookupKey args "budget_id" = some v → v.truthy = false) →
        getBudgetId (some args) svc =
          (.str svc.defaultBudget.id, [SvcCall.getDefaultBudget])) ∧
    (∀ (name : String) (arguments : Option ArgMap) (st : DState),
        resolutionFirst (handle_call_tool name arguments st).trace = true) := by
  refine ⟨?_, ?_, ?_⟩
  · intro v hv ht
    have hne : args.isEmpty = false := by
      cases args with
      | nil => simp [lookupKey] at hv
      | cons h t => rfl
    unfold getBudgetId
    simp [hne, hv, ht]
  · intro hfalsy
    unfold getBudgetId
    cases args with
    | nil => rfl
    | cons h t =>
        rcases hl : lookupKey (h :: t) "budget_id" with _ | v
        · simp [hl]
        · simp [hl, hfalsy v hl]
  · exact fun name arguments st => (handle_call_tool_shape name arguments st).1

theorem c1_budget_resolution_witness :
    getBudgetId (some [("budget_id", .str "b42")]) svc0 = (.str "b42", []) ∧
    getBudgetId (some [("month", .str "2024-01-01")]) svc0 =
      (.str "bdef", [SvcCall.getDefaultBudget]) ∧
    resolutionFirst (handle_call_tool "list-accounts" Option.none st0).trace = true := by
  refine ⟨?_, ?_, ?_⟩
  · exact (c1_budget_resolution [("budget_id", .str "b42")] svc0).1 _ rfl rfl
  · exact (c1_budget_resolution [("month", .str "2024-01-01")] svc0).2.1
      (by intro v hv; simp [lookupKey] at hv)
  · exact (c1_budget_resolution [] svc0).2.2 "list-accounts" Option.none st0

/-- C2: a `move-budget-amount` invocation with month `M`, source
category `A` (current budgeted `f`), target category `B` (current
budgeted `t`) and integer amount `a` issues exactly two
`assign_budget_amount` calls, in order: first `assign(A, M, f - a)`,
then `assign(B, M, t + a)`. -/
theorem c2_move_two_assigns (st : DState) (args : ArgMap) (M A B : String) (a : Int)
    (hM : lookupKey args "month" = some (.str M))
    (hA : lookupKey args "from_category_id" = some (.str A))
    (hB : lookupKey args "to_category_id" = some (.str B))
    (ha : lookupKey args "amount" = some (.int a)) :
    (handle_call_tool "move-budget-amount" (some args) st).trace.filter isAssignCall =
      [SvcCall.assignBudgetAmount (getBudgetId (some args) st.svc).1 (.str M) (.str A)
         (.int ((st.svc.monthCats (pyStr (getBudgetId (some args) st.svc).1) M A).budgeted - a)),
       SvcCall.assignBudgetAmount (getBudgetId (some args) st.svc).1 (.str M) (.str B)
         (.int ((st.svc.monthCats (pyStr (getBudgetId (some args) st.svc).1) M B).budgeted + a))] := by
  have hne : args.isEmpty = false := by
    cases args with
    | nil => simp [lookupKey] at hM
    | cons h t => rfl
  have hdisp : handle_call_tool "move-budget-amount" (some args) st =
      handleMoveBudgetAmount (some args) st := rfl
  rw [hdisp]
  rcases getBudgetId_trace_cases (some args) st.svc with h | h <;>
    simp [handleMoveBudgetAmount, hM, hA, hB, ha, hne, h, okText,
      isAssignCall, List.filter_append, pyStr]

theorem c2_move_two_assigns_witness :
    (handle_call_tool "move-budget-amount" (some moveArgs0) st0).trace.filter isAssignCall =
      [SvcCall.assignBudgetAmount (.str "bdef") (.str "2024-01-01") (.str "catA") (.int 800),
       SvcCall.assignBudgetAmount (.str "bdef") (.str "2024-01-01") (.str "catB") (.int 700)] :=
  c2_move_two_assigns st0 moveArgs0 "2024-01-01" "catA" "catB" 200 rfl rfl rfl rfl

/-- C3: a successful `move-budget-amount` between two distinct
categories leaves the sum of their budgeted amounts for that month
unchanged (a conservation transfer). -/
theorem c3_move_conserves_sum (st : DState) (args : ArgMap) (M A B : String) (a : Int)
    (hM : lookupKey args "month" = some (.str M))
    (hA : lookupKey args "from_category_id" = some (.str A))
    (hB : lookupKey args "to_category_id" = some (.str B))
    (ha : lookupKey args "amount" = some (.int a))
    (hAB : A ≠ B)
    (hok : (handle_call_tool "move-budget-amount" (some args) st).isOk = true) :
    ((handle_call_tool "move-budget-amount" (some args) st).state.svc.monthCats
        (pyStr (getBudgetId (some args) st.svc).1) M A).budgeted +
      ((handle_call_tool "move-budget-amount" (some args) st).state.svc.monthCats
        (pyStr (getBudgetId (some args) st.svc).1) M B).budgeted =
      (st.svc.monthCats (pyStr (getBudgetId (some args) st.svc).1) M A).budgeted +
        (st.svc.monthCats (pyStr (getBudgetId (some args) st.svc).1) M B).budgeted := by
  have hne : args.isEmpty = false := by
    cases args with
    | nil => simp [lookupKey] at hM
    | cons h t => rfl
  have hdisp : handle_call_tool "move-budget-amount" (some args) st =
      handleMoveBudgetAmount (some args) st := rfl
  rw [hdisp]
  have hBA : B ≠ A := fun h => hAB h.symm
  simp only [handleMoveBudgetAmount, hM, hA, hB, ha, hne, Option.getD_some,
    Option.isNone_some, List.isEmpty_eq_true, Bool.false_or, Bool.or_false,
    if_false, okText, Svc.applyAssign]
  simp [Svc.applyAssign, okText, hAB, hBA, pyStr]
  try ring

theorem c3_move_conserves_sum_witness :
    ((handle_call_tool "move-budget-amount" (some moveArgs0) st0).state.svc.monthCats
        (pyStr (getBudgetId (some moveArgs0) st0.svc).1) "2024-01-01" "catA").budgeted +
      ((handle_call_tool "move-budget-amount" (some moveArgs0) st0).state.svc.monthCats
        (pyStr (getBudgetId (some moveArgs0) st0.svc).1) "2024-01-01" "catB").budgeted =
      (st0.svc.monthCats (pyStr (getBudgetId (some moveArgs0) st0.svc).1)
          "2024-01-01" "catA").budgeted +
        (st0.svc.monthCats (pyStr (getBudgetId (some moveArgs0) st0.svc).1)
          "2024-01-01" "catB").budgeted :=
  c3_move_conserves_sum st0 moveArgs0 "2024-01-01" "catA" "catB" 200 rfl rfl rfl rfl
    (by decide) rfl

/-- C10: every tool invocation that completes without raising an error
returns a sequence of exactly one content block, and that block is a
plain text block. -/
theorem c10_single_text_block (name : String) (arguments : Option ArgMap) (st : DState)
    (out : List Content)
    (h : (handle_call_tool name arguments st).result = Except.ok out) :
    ∃ s, out = [Content.text s] :=
  (handle_call_tool_shape name arguments st).2 out h

theorem c10_single_text_block_witness :
    ∃ s, [Content.text "No budgets found."] = [Content.text s] :=
  c10_single_text_block "list-budgets" Option.none stEmpty
    [Content.text "No budgets found."] rfl

/-- C8: every listing tool returns a single explicit "none found" text
block when the service reports an empty result set (never an empty
block or an empty sequence of blocks). -/
theorem c8_empty_listings (st : DState) :
    (∀ arguments, st.svc.budgets = [] →
      (handle_call_tool "list-budgets" arguments st).result =
        Except.ok [Content.text "No budgets found."]) ∧
    (∀ arguments argsP, ListAccountsInput.parse (arguments.getD []) = Except.ok argsP →
      st.svc.accounts = [] →
      (handle_call_tool "list-accounts" arguments st).result =
        Except.ok [Content.text "No accounts found for this budget."]) ∧
    (∀ arguments argsP, ListTransactionsInput.parse (arguments.getD []) = Except.ok argsP →
      st.svc.transactionsResp = [] →
      (handle_call_tool "list-transactions" arguments st).result =
        Except.ok [Content.text "No transactions found for this account."]) ∧
    (∀ arguments argsP,
      ListMonthlyTransactionsInput.parse (arguments.getD []) = Except.ok argsP →
      st.svc.monthlyResp = [] →
      (handle_call_tool "list-monthly-transactions" arguments st).result =
        Except.ok [Content.text "No transactions found for this month."]) ∧
    (∀ arguments argsP, ListCategoriesInput.parse (arguments.getD []) = Except.ok argsP →
      st.svc.categories = [] →
      (handle_call_tool "list-categories" arguments st).result =
        Except.ok [Content.text "No categories found for this budget."]) ∧
    (∀ arguments argsP, ListPayeesInput.parse (arguments.getD []) = Except.ok argsP →
      st.svc.payees = [] →
      (handle_call_tool "list-payees" arguments st).result =
        Except.ok [Content.text "No payees found for this budget."]) ∧
    (∀ arguments, st.svc.scheduled = [] →
      (handle_call_tool "list-scheduled-transactions" arguments st).result =
        Except.ok [Content.text "No scheduled transactions found."]) := by
  refine ⟨?_, ?_, ?_, ?_, ?_, ?_, ?_⟩
  · intro arguments h
    have hd : handle_call_tool "list-budgets" arguments st = handleListBudgets st := rfl
    rw [hd]
    simp [handleListBudgets, h, okText]
  · intro arguments argsP hp h
    have hd : handle_call_tool "list-accounts" arguments st =
        handleListAccounts arguments st := rfl
    rw [hd]
    simp [handleListAccounts, hp, h, okText]
  · intro arguments argsP hp h
    have hd : handle_call_tool "list-transactions" arguments st =
        handleListTransactions arguments st := rfl
    rw [hd]
    simp [handleListTransactions, hp, h, okText]
  · intro arguments argsP hp h
    have hd : handle_call_tool "list-monthly-transactions" arguments st =
        handleListMonthlyTransactions arguments st := rfl
    rw [hd]
    simp [handleListMonthlyTransactions, hp, h, okText]
  · intro arguments argsP hp h
    have hd : handle_call_tool "list-categories" arguments st =
        handleListCategories arguments st := rfl
    rw [hd]
    simp [handleListCategories, hp, h, okText]
  · intro arguments argsP hp h
    have hd : handle_call_tool "list-payees" arguments st =
        handleListPayees arguments st := rfl
    rw [hd]
    simp [handleListPayees, hp, h, okText]
  · intro arguments h
    have hd : handle_call_tool "list-scheduled-transactions" arguments st =
        handleListScheduledTransactions arguments st := rfl
    rw [hd]
    simp [handleListScheduledTransactions, h, okText]

theorem c8_empty_listings_witness :
    (handle_call_tool "list-budgets" Option.none stEmpty).result =
      Except.ok [Content.text "No budgets found."] ∧
    (handle_call_tool "list-accounts" Option.none stEmpty).result =
      Except.ok [Content.text "No accounts found for this budget."] ∧
    (handle_call_tool "list-transactions" (some [("account_id", .str "acc1")])
        stEmpty).result =
      Except.ok [Content.text "No transactions found for this account."] ∧
    (handle_call_tool "list-monthly-transactions" (some [("month", .str "2024-01-01")])
        stEmpty).result =
      Except.ok [Content.text "No transactions found for this month."] ∧
    (handle_call_tool "list-categories" Option.none stEmpty).result =
      Except.ok [Content.text "No categories found for this budget."] ∧
    (handle_call_tool "list-payees" Option.none stEmpty).result =
      Except.ok [Content.text "No payees found for this budget."] ∧
    (handle_call_tool "list-scheduled-transactions" Option.none stEmpty).result =
      Except.ok [Content.text "No scheduled transactions found."] := by
  refine ⟨?_, ?_, ?_, ?_, ?_, ?_, ?_⟩
  · exact (c8_empty_listings stEmpty).1 Option.none rfl
  · exact (c8_empty_listings stEmpty).2.1 Option.none ⟨Option.none⟩ rfl rfl
  · exact (c8_empty_listings stEmpty).2.2.1 (some [("account_id", .str "acc1")])
      ⟨Option.none, "acc1", Option.none, Option.none⟩ rfl rfl
  · exact (c8_empty_listings stEmpty).2.2.2.1 (some [("month", .str "2024-01-01")])
      ⟨Option.none, "2024-01-01", Option.none⟩ rfl rfl
  · exact (c8_empty_listings stEmpty).2.2.2.2.1 Option.none ⟨Option.none⟩ rfl rfl
  · exact (c8_empty_listings stEmpty).2.2.2.2.2.1 Option.none ⟨Option.none⟩ rfl rfl
  · exact (c8_empty_listings stEmpty).2.2.2.2.2.2 Option.none rfl

/-- The goal-target rendering Claim C9 describes: `"N/A"` exactly when
the target is unset (a refinement-side definition, to be compared with
the code's `goalTargetStr`). -/
def spec_goalTargetStr (c : Category) : String :=
  match c.goal_target with
  | some t => formatMilli t
  | Option.none => "N/A"

/-- A visible category whose goal target is explicitly set to zero. -/
def catGoalZero : Category :=
  ⟨"c9", "Vacation", false, 0, 0, 0, some "TB", some 0, some 50⟩

/-- C9 counterexample: for a category with a goal whose target is set
to `0`, the claim predicts the target renders as `0.00` (it is not
unset), but the code's Python truthiness check renders `N/A`. -/
theorem c9_goal_target_counterexample :
    catGoalZero.goal_target = some 0 ∧
    goalTargetStr catGoalZero = "N/A" ∧
    spec_goalTargetStr catGoalZero = "0.00" ∧
    goalTargetStr catGoalZero ≠ spec_goalTargetStr catGoalZero ∧
    renderCat catGoalZero =
      "- Vacation (ID: c9)\n  - Budgeted: 0.00, Spent: 0.00, Balance: 0.00\n" ++
        "  - Goal (TB): Target N/A, 50% complete\n" := by
  refine ⟨rfl, rfl, rfl, ?_, rfl⟩
  decide

theorem concatStrings_map_middle {α : Type} (f : α → String) (pre post : List α)
    (g : α) (h : f g = "") :
    concatStrings ((pre ++ g :: post).map f) = concatStrings ((pre ++ post).map f) := by
  induction pre with
  | nil => simp [concatStrings, h]
  | cons p ps ih =>
      simp only [List.append_eq, List.map_cons, List.map_append, concatStrings] at ih ⊢
      rw [ih]

/-- C9 (amended): hidden groups and hidden categories produce no output
lines; a visible category with a truthy goal type appends the goal
type, the target amount (milliunits over 1000) when the target is set
and non-zero and `"N/A"` when it is unset OR ZERO, and the
percent-complete defaulting to 0 when unset. -/
theorem c9_list_categories_rendering :
    (∀ (pre post : List CategoryGroup) (g : CategoryGroup), g.hidden = true →
        renderCategories (pre ++ g :: post) = renderCategories (pre ++ post)) ∧
    (∀ c : Category, c.hidden = true → renderCat c = "") ∧
    (∀ (c : Category) (t : Int), c.goal_target = some t → t ≠ 0 →
        goalTargetStr c = formatMilli t) ∧
    (∀ c : Category, c.goal_target = Option.none ∨ c.goal_target = some 0 →
        goalTargetStr c = "N/A") ∧
    (∀ (c : Category) (gt : String), c.hidden = false → c.goal_type = some gt →
        gt ≠ "" →
        renderCat c =
          "- " ++ c.name ++ " (ID: " ++ c.id ++ ")\n  - " ++ catDetails c ++ "\n" ++
            goalLine c gt) ∧
    (∀ c : Category, c.hidden = false → c.goal_type = Option.none →
        renderCat c = "- " ++ c.name ++ " (ID: " ++ c.id ++ ")\n  - " ++
          catDetails c ++ "\n") := by
  refine ⟨?_, ?_, ?_, ?_, ?_, ?_⟩
  · intro pre post g hg
    unfold renderCategories
    rw [concatStrings_map_middle renderGroup pre post g (by simp [renderGroup, hg])]
  · intro c hc
    simp [renderCat, hc]
  · intro c t ht hnz
    simp [goalTargetStr, ht, hnz]
  · intro c hc
    rcases hc with h | h <;> simp [goalTargetStr, h]
  · intro c gt hh hg hne
    simp [renderCat, hh, hg, hne]
  · intro c hh hg
    simp [renderCat, hh, hg]

theorem c9_list_categories_rendering_witness :
    renderCategories [⟨"Hidden Group", true, [catGoalZero]⟩] = renderCategories [] ∧
    renderCat ⟨"ch", "Old", true, 0, 0, 0, Option.none, Option.none, Option.none⟩ = "" ∧
    goalTargetStr ⟨"cg", "Car", false, 0, 0, 0, some "TB", some 500000, some 10⟩ =
      formatMilli 500000 ∧
    goalTargetStr catGoalZero = "N/A" ∧
    renderCat ⟨"cg", "Car", false, 1000, -2000, 3000, some "TB", some 500000, Option.none⟩ =
      "- Car (ID: cg)\n  - " ++
        catDetails ⟨"cg", "Car", false, 1000, -2000, 3000, some "TB", some 500000, Option.none⟩ ++
        "\n" ++
        goalLine ⟨"cg", "Car", false, 1000, -2000, 3000, some "TB", some 500000, Option.none⟩
          "TB" ∧
    renderCat ⟨"cp", "Plain", false, 0, 0, 0, Option.none, Option.none, Option.none⟩ =
      "- Plain (ID: cp)\n  - " ++
        catDetails ⟨"cp", "Plain", false, 0, 0, 0, Option.none, Option.none, Option.none⟩ ++
        "\n" := by
  refine ⟨?_, ?_, ?_, ?_, ?_, ?_⟩
  · exact c9_list_categories_rendering.1 [] [] ⟨"Hidden Group", true, [catGoalZero]⟩ rfl
  · exact c9_list_categories_rendering.2.1 _ rfl
  · exact c9_list_categories_rendering.2.2.1
      ⟨"cg", "Car", false, 0, 0, 0, some "TB", some 500000, some 10⟩ 500000 rfl (by decide)
  · exact c9_list_categories_rendering.2.2.2.1 catGoalZero (Or.inr rfl)
  · exact c9_list_categories_rendering.2.2.2.2.1
      ⟨"cg", "Car", false, 1000, -2000, 3000, some "TB", some 500000, Option.none⟩
      "TB" rfl rfl (by decide)
  · exact c9_list_categories_rendering.2.2.2.2.2
      ⟨"cp", "Plain", false, 0, 0, 0, Option.none, Option.none, Option.none⟩ rfl rfl

/-- The non-hidden budgeted sum of the last group with the given name,
defaulting to `d` when none matches (the effect of the overwrite loop
on one accumulator component). -/
def lastGroupSumD (n : String) (d : Int) : List CategoryGroup → Int
  | [] => d
  | g :: rest =>
      if g.name = n then lastGroupSumD n (sumBudgeted g) rest
      else lastGroupSumD n d rest

/-- The non-hidden budgeted sum of the last group with the given name,
or `0` when none matches. -/
def lastGroupSum (n : String) (gs : List CategoryGroup) : Int :=
  lastGroupSumD n 0 gs

theorem lastGroupSumD_cons (n : String) (d : Int) (g : CategoryGroup)
    (rest : List CategoryGroup) :
    lastGroupSumD n d (g :: rest) =
      if g.name = n then lastGroupSumD n (sumBudgeted g) rest
      else lastGroupSumD n d rest := rfl

theorem foldl_aggStep (gs : List CategoryGroup) : ∀ acc : Int × Int × Int,
    gs.foldl aggStep acc =
      (lastGroupSumD "Bills" acc.1 gs, lastGroupSumD "Wants" acc.2.1 gs,
       lastGroupSumD "Savings" acc.2.2 gs) := by
  induction gs with
  | nil => intro acc; rfl
  | cons g rest ih =>
      intro acc
      rw [List.foldl_cons, ih, lastGroupSumD_cons, lastGroupSumD_cons, lastGroupSumD_cons]
      by_cases h1 : g.name = "Bills"
      · simp [aggStep, h1]
      · by_cases h2 : g.name = "Wants"
        · simp [aggStep, h1, h2]
        · by_cases h3 : g.name = "Savings"
          · simp [aggStep, h1, h2, h3]
          · simp [aggStep, h1, h2, h3]

theorem monthlyAgg_eq_lastGroupSum (gs : List CategoryGroup) :
    monthlyAgg gs =
      (lastGroupSum "Bills" gs, lastGroupSum "Wants" gs, lastGroupSum "Savings" gs) :=
  foldl_aggStep gs (0, 0, 0)

theorem lastGroupSumD_of_no_match (n : String) (d : Int) (gs : List CategoryGroup)
    (h : ∀ g ∈ gs, g.name ≠ n) : lastGroupSumD n d gs = d := by
  induction gs with
  | nil => rfl
  | cons g rest ih =>
      have hg := h g (List.mem_cons_self g rest)
      simp [lastGroupSumD, hg, ih (fun g' hg' => h g' (List.mem_cons_of_mem g hg'))]

/-- The aggregate Claim C4 describes: the sum over ALL groups carrying
the given literal name (refinement-side definition, to be compared with
the code's `monthlyAgg`). -/
def spec_groupNameSum (n : String) (gs : List CategoryGroup) : Int :=
  ((gs.filter (fun g => g.name == n)).map sumBudgeted).sum

/-- The savings rate Claim C4 describes: zero exactly when the
denominator is zero (refinement-side definition, to be compared with
the code's `savingsRate`). -/
def spec_savingsRate (fb ds sv : Int) : Rat :=
  if fb + ds + sv = 0 then 0 else (sv : Rat) / ((fb + ds + sv : Int) : Rat) * 100

/-- Category groups exhibiting both divergences of Claim C4: two groups
named `Bills` (sums 100 and -700) and one `Savings` group (sum 200). -/
def gsC4 : List CategoryGroup :=
  [⟨"Bills", false, [⟨"cb1", "Rent", false, 100, 0, 0, Option.none, Option.none, Option.none⟩]⟩,
   ⟨"Bills", false,
     [⟨"cb2", "Utilities", false, -700, 0, 0, Option.none, Option.none, Option.none⟩]⟩,
   ⟨"Savings", false,
     [⟨"cs1", "Fund", false, 200, 0, 0, Option.none, Option.none, Option.none⟩]⟩]

/-- C4 counterexample: on `gsC4` the code computes fixed_bills = -700
(the last matching group overwrites; the claim's sum over the groups
named `Bills` is -600), and the code computes savings_rate = 0 because
the total -500 is not positive, while the claim prescribes the formula
whenever the denominator is non-zero, giving -40. -/
theorem c4_counterexample :
    monthlyAgg gsC4 = (-700, 0, 200) ∧
    spec_groupNameSum "Bills" gsC4 = -600 ∧
    (monthlyAgg gsC4).1 ≠ spec_groupNameSum "Bills" gsC4 ∧
    savingsRate (-700) 0 200 = 0 ∧
    spec_savingsRate (-700) 0 200 = -40 ∧
    savingsRate (-700) 0 200 ≠ spec_savingsRate (-700) 0 200 := by
  refine ⟨by decide, by decide, by decide, by decide, ?_, ?_⟩
  · norm_num [spec_savingsRate]
  · norm_num [savingsRate, spec_savingsRate]

/-- C4 (amended): fixed_bills, discretionary_spending and savings equal
the budgeted sums of non-hidden categories in the LAST group literally
named `Bills`, `Wants` and `Savings` respectively (0 when no group
matches, so the unique such group when names are unique; unmatched
names contribute to none); savings_rate equals
savings / (fixed_bills + discretionary_spending + savings) * 100 when
that total is positive and 0 otherwise (including zero and negative
totals, with no division-by-zero error); with no matching groups all
three sums and the rate are 0; and the refreshed overview document's
`monthly_overview` section holds exactly these values. -/
theorem c4_refresh_aggregates (gs : List CategoryGroup) :
    monthlyAgg gs =
      (lastGroupSum "Bills" gs, lastGroupSum "Wants" gs, lastGroupSum "Savings" gs) ∧
    (∀ fb ds sv : Int, 0 < fb + ds + sv →
        savingsRate fb ds sv = (sv : Rat) / ((fb + ds + sv : Int) : Rat) * 100) ∧
    (∀ fb ds sv : Int, fb + ds + sv ≤ 0 → savingsRate fb ds sv = 0) ∧
    ((∀ g ∈ gs, g.name ≠ "Bills" ∧ g.name ≠ "Wants" ∧ g.name ≠ "Savings") →
        monthlyAgg gs = (0, 0, 0) ∧ savingsRate 0 0 0 = 0) ∧
    (∀ (st : DState) (arguments : Option ArgMap) (d : Doc),
        (handle_call_tool "refresh-financial-overview" arguments st).state.store =
          some d →
        lookupKey d "monthly_overview" = some (.dict
          [("fixed_bills", .float (((monthlyAgg st.svc.categories).1 : Rat) / 1000)),
           ("discretionary_spending",
             .float (((monthlyAgg st.svc.categories).2.1 : Rat) / 1000)),
           ("savings_rate", .float (savingsRate (monthlyAgg st.svc.categories).1
              (monthlyAgg st.svc.categories).2.1
              (monthlyAgg st.svc.categories).2.2))])) := by
  refine ⟨monthlyAgg_eq_lastGroupSum gs, ?_, ?_, ?_, ?_⟩
  · intro fb ds sv h
    simp [savingsRate, h]
  · intro fb ds sv h
    simp [savingsRate, not_lt.mpr h]
  · intro h
    refine ⟨?_, by simp [savingsRate]⟩
    rw [monthlyAgg_eq_lastGroupSum]
    unfold lastGroupSum
    rw [lastGroupSumD_of_no_match _ _ _ (fun g hg => (h g hg).1),
        lastGroupSumD_of_no_match _ _ _ (fun g hg => (h g hg).2.1),
        lastGroupSumD_of_no_match _ _ _ (fun g hg => (h g hg).2.2)]
  · intro st arguments d hd
    have hdisp : handle_call_tool "refresh-financial-overview" arguments st =
        handleRefreshFinancialOverview arguments st := rfl
    rw [hdisp] at hd
    dsimp only [handleRefreshFinancialOverview, okText, save_overview] at hd
    injection hd with h2
    rw [← h2]
    rw [lookupKey_setKey_other _ _ _ _ (by decide)]
    exact lookupKey_setKey_self _ _ _

/-- The aggregates of the all-empty test service. -/
def aggE : Int × Int × Int := monthlyAgg stEmpty.svc.categories

/-- The overview document persisted by `refresh-financial-overview` on
the all-empty test state. -/
def d0 : Doc :=
  [("account_balances", PyVal.dict []),
   ("monthly_overview", PyVal.dict
     [("fixed_bills", .float ((aggE.1 : Rat) / 1000)),
      ("discretionary_spending", .float ((aggE.2.1 : Rat) / 1000)),
      ("savings_rate", .float (savingsRate aggE.1 aggE.2.1 aggE.2.2))]),
   ("last_updated", PyVal.str "2026-10-12T00:00:00Z")]

theorem c4_refresh_aggregates_witness :
    monthlyAgg gsC4 =
      (lastGroupSum "Bills" gsC4, lastGroupSum "Wants" gsC4, lastGroupSum "Savings" gsC4) ∧
    savingsRate 100 50 50 = (50 : Rat) / ((100 + 50 + 50 : Int) : Rat) * 100 ∧
    savingsRate (-700) 0 200 = 0 ∧
    (monthlyAgg ([] : List CategoryGroup) = (0, 0, 0) ∧ savingsRate 0 0 0 = 0) ∧
    lookupKey d0 "monthly_overview" = some (.dict
      [("fixed_bills", .float ((aggE.1 : Rat) / 1000)),
       ("discretionary_spending", .float ((aggE.2.1 : Rat) / 1000)),
       ("savings_rate", .float (savingsRate aggE.1 aggE.2.1 aggE.2.2))]) := by
  refine ⟨(c4_refresh_aggregates gsC4).1, ?_, ?_, ?_, ?_⟩
  · exact (c4_refresh_aggregates gsC4).2.1 100 50 50 (by decide)
  · exact (c4_refresh_aggregates gsC4).2.2.1 (-700) 0 200 (by decide)
  · exact (c4_refresh_aggregates []).2.2.2.1 (by simp)
  · exact (c4_refresh_aggregates []).2.2.2.2 stEmpty Option.none d0 rfl

/-- C5: partial writes preserve unrelated sections.  The Overview Store
itself (`ynab_client.notes`) is not under `src/` and is modelled from
the spec (§4.2): `update_overview_section` yields a document whose
named section equals the payload and whose every other top-level key
(apart from the `last_updated` stamp, which per the spec reflects the
most recent write) is unchanged; the dispatcher's
`update-financial-overview-section` branch behaves accordingly on its
persisted document; and `refresh-financial-overview` overwrites exactly
`account_balances` and `monthly_overview` (plus the stamp), leaving all
other sections of the loaded document unchanged in what is persisted. -/
theorem c5_overview_frame (store : Option Doc) (now sec : String) (data : PyVal) :
    (∀ d, update_overview_section store now sec data = some d →
      (sec ≠ "last_updated" → lookupKey d sec = some data) ∧
      lookupKey d "last_updated" = some (.str now) ∧
      (∀ k, k ≠ sec → k ≠ "last_updated" →
        lookupKey d k = lookupKey (load_overview store) k)) ∧
    (∀ (st : DState) (args : ArgMap) (d : Doc) (secv datav : PyVal),
      lookupKey args "section" = some secv → lookupKey args "data" = some datav →
      (handle_call_tool "update-financial-overview-section" (some args) st).state.store =
        some d →
      (pyStr secv ≠ "last_updated" → lookupKey d (pyStr secv) = some datav) ∧
      lookupKey d "last_updated" = some (.str st.now) ∧
      (∀ k, k ≠ pyStr secv → k ≠ "last_updated" →
        lookupKey d k = lookupKey (load_overview st.store) k)) ∧
    (∀ (st : DState) (arguments : Option ArgMap) (d : Doc),
      (handle_call_tool "refresh-financial-overview" arguments st).state.store = some d →
      (∃ ab, lookupKey d "account_balances" = some ab) ∧
      (∃ mo, lookupKey d "monthly_overview" = some mo) ∧
      (∀ k, k ≠ "account_balances" → k ≠ "monthly_overview" → k ≠ "last_updated" →
        lookupKey d k = lookupKey (load_overview st.store) k)) := by
  refine ⟨?_, ?_, ?_⟩
  · intro d hd
    unfold update_overview_section save_overview at hd
    injection hd with h2
    rw [← h2]
    refine ⟨?_, lookupKey_setKey_self _ _ _, ?_⟩
    · intro hs
      rw [lookupKey_setKey_other _ _ _ _ hs]
      exact lookupKey_setKey_self _ _ _
    · intro k hk hku
      rw [lookupKey_setKey_other _ _ _ _ hku, lookupKey_setKey_other _ _ _ _ hk]
  · intro st args d secv datav hs hv hd
    have hne : args.isEmpty = false := by
      cases args with
      | nil => simp [lookupKey] at hs
      | cons h t => rfl
    have hdisp : handle_call_tool "update-financial-overview-section" (some args) st =
        handleUpdateFinancialOverviewSection (some args) st := rfl
    rw [hdisp] at hd
    dsimp only [handleUpdateFinancialOverviewSection] at hd
    rw [hne, hs, hv] at hd
    dsimp only [okText, update_overview_section, save_overview, Option.getD_some,
      Option.isNone_some, Bool.false_or, Bool.or_false] at hd
    injection hd with h2
    rw [← h2]
    refine ⟨?_, lookupKey_setKey_self _ _ _, ?_⟩
    · intro hsne
      rw [lookupKey_setKey_other _ _ _ _ hsne]
      exact lookupKey_setKey_self _ _ _
    · intro k hk hku
      rw [lookupKey_setKey_other _ _ _ _ hku, lookupKey_setKey_other _ _ _ _ hk]
  · intro st arguments d hd
    have hdisp : handle_call_tool "refresh-financial-overview" arguments st =
        handleRefreshFinancialOverview arguments st := rfl
    rw [hdisp] at hd
    dsimp only [handleRefreshFinancialOverview, okText, save_overview] at hd
    injection hd with h2
    rw [← h2]
    refine ⟨?_, ?_, ?_⟩
    · exact ⟨_, by
        rw [lookupKey_setKey_other _ _ _ _ (by decide),
            lookupKey_setKey_other _ _ _ _ (by decide), lookupKey_setKey_self]⟩
    · exact ⟨_, by
        rw [lookupKey_setKey_other _ _ _ _ (by decide), lookupKey_setKey_self]⟩
    · intro k hab hmo hku
      rw [lookupKey_setKey_other _ _ _ _ hku, lookupKey_setKey_other _ _ _ _ hmo,
          lookupKey_setKey_other _ _ _ _ hab]

/-- The persisted-store fixture for the C5 witness. -/
def storeU : Option Doc := some [("action_items", PyVal.list [PyVal.str "pay card"])]

/-- The document `update_overview_section` produces on `storeU`. -/
def dU : Doc :=
  [("action_items", PyVal.list [PyVal.str "pay card"]),
   ("goals", PyVal.dict [("target", PyVal.int 5000)]),
   ("last_updated", PyVal.str "2026-10-12T00:00:00Z")]

theorem c5_overview_frame_witness :
    lookupKey dU "goals" = some (PyVal.dict [("target", PyVal.int 5000)]) ∧
    lookupKey dU "action_items" = lookupKey (load_overview storeU) "action_items" ∧
    lookupKey dU "last_updated" = some (PyVal.str "2026-10-12T00:00:00Z") ∧
    lookupKey d0 "account_balances" = some (PyVal.dict []) ∧
    lookupKey d0 "goals" = lookupKey (load_overview stEmpty.store) "goals" := by
  have h := (c5_overview_frame storeU "2026-10-12T00:00:00Z" "goals"
    (PyVal.dict [("target", PyVal.int 5000)])).1 dU rfl
  have h3 := (c5_overview_frame Option.none "" "" PyVal.none).2.2 stEmpty Option.none d0 rfl
  exact ⟨h.1 (by decide), h.2.2 "action_items" (by decide) (by decide), h.2.1, rfl,
    h3.2.2 "goals" (by decide) (by decide) (by decide)⟩

theorem isNone_false_iff (v : PyVal) : v.isNone = false ↔ v ≠ PyVal.none := by
  cases v <;> simp [PyVal.isNone]

theorem transactionData_clean (args : CreateTransactionInput) :
    ∀ kv ∈ transactionData args, kv.2 ≠ PyVal.none ∧ kv.1 ≠ "budget_id" := by
  intro kv hkv
  obtain ⟨-, hp⟩ := List.mem_filter.mp hkv
  simp only [Bool.and_eq_true, Bool.not_eq_true'] at hp
  refine ⟨(isNone_false_iff kv.2).mp hp.1, ?_⟩
  simpa using hp.2

theorem updatePayload_clean (tx : TransactionUpdate) :
    ∀ kv ∈ updatePayload tx, kv.2 ≠ PyVal.none := by
  intro kv hkv
  obtain ⟨-, hp⟩ := List.mem_filter.mp hkv
  simp only [Bool.not_eq_true'] at hp
  exact (isNone_false_iff kv.2).mp hp

theorem exceptBind_eq_ok {α β : Type} {x : Except Err α} {f : α → Except Err β} {b : β}
    (h : (x >>= f) = Except.ok b) : ∃ a, x = Except.ok a ∧ f a = Except.ok b := by
  cases x with
  | error e => simp [Bind.bind, Except.bind] at h
  | ok a => exact ⟨a, rfl, by simpa [Bind.bind, Except.bind] using h⟩

/-- C6: the new-transaction request built by `create-transaction`
contains no key set to an explicit null and never contains `budget_id`;
`approved` defaults to false when not supplied; each `update-transactions`
record payload contains the record's id plus exactly the supplied
non-null fields (a record giving only id and memo sends only those two
keys), and what is sent to the service on both paths is exactly these
stripped payloads. -/
theorem c6_payload_stripping :
    (∀ (args : CreateTransactionInput) (kv : String × PyVal),
        kv ∈ transactionData args → kv.2 ≠ PyVal.none ∧ kv.1 ≠ "budget_id") ∧
    (∀ (raw : ArgMap) (args : CreateTransactionInput),
        CreateTransactionInput.parse raw = Except.ok args →
        lookupKey raw "approved" = Option.none →
        args.approved = false ∧
          ("approved", PyVal.bool false) ∈ transactionData args) ∧
    (∀ (st : DState) (arguments : Option ArgMap) (b : PyVal) (p : List (String × PyVal)),
        SvcCall.createTransaction b p ∈
          (handle_call_tool "create-transaction" arguments st).trace →
        ∀ kv ∈ p, kv.2 ≠ PyVal.none ∧ kv.1 ≠ "budget_id") ∧
    (∀ tx : TransactionUpdate, ∀ kv ∈ updatePayload tx, kv.2 ≠ PyVal.none) ∧
    (∀ tx : TransactionUpdate,
        lookupKey (updatePayload tx) "id" = some (.str tx.id)) ∧
    (∀ i m : String,
        updatePayload ⟨i, Option.none, Option.none, Option.none, Option.none,
          Option.none, some m, Option.none, Option.none, Option.none⟩ =
          [("id", .str i), ("memo", .str m)]) ∧
    (∀ (st : DState) (arguments : Option ArgMap) (b : PyVal)
        (ps : List (List (String × PyVal))),
        SvcCall.updateTransactions b ps ∈
          (handle_call_tool "update-transactions" arguments st).trace →
        ∀ p ∈ ps, ∀ kv ∈ p, kv.2 ≠ PyVal.none) := by
  refine ⟨transactionData_clean, ?_, ?_, updatePayload_clean, ?_, ?_, ?_⟩
  · intro raw args hp happ
    unfold CreateTransactionInput.parse at hp
    obtain ⟨v1, h1, hp⟩ := exceptBind_eq_ok hp
    obtain ⟨v2, h2, hp⟩ := exceptBind_eq_ok hp
    obtain ⟨v3, h3, hp⟩ := exceptBind_eq_ok hp
    obtain ⟨v4, h4, hp⟩ := exceptBind_eq_ok hp
    obtain ⟨v5, h5, hp⟩ := exceptBind_eq_ok hp
    obtain ⟨v6, h6, hp⟩ := exceptBind_eq_ok hp
    obtain ⟨v7, h7, hp⟩ := exceptBind_eq_ok hp
    obtain ⟨v8, h8, hp⟩ := exceptBind_eq_ok hp
    obtain ⟨v9, h9, hp⟩ := exceptBind_eq_ok hp
    obtain ⟨v10, h10, hp⟩ := exceptBind_eq_ok hp
    obtain ⟨v11, h11, hp⟩ := exceptBind_eq_ok hp
    obtain ⟨v12, h12, hp⟩ := exceptBind_eq_ok hp
    simp only [boolDefaultFalseField, happ] at h10
    injection h10 with h10
    simp only [pure, Except.pure] at hp
    injection hp with hp
    have happF : args.approved = false := by rw [← hp, ← h10]
    refine ⟨happF, ?_⟩
    refine List.mem_filter.mpr ⟨?_, by simp [PyVal.isNone]⟩
    rw [← happF]
    simp [CreateTransactionInput.model_dump]
  · intro st arguments b p hmem
    have hd : handle_call_tool "create-transaction" arguments st =
        handleCreateTransaction arguments st := rfl
    rw [hd] at hmem
    unfold handleCreateTransaction at hmem
    rcases hparse : CreateTransactionInput.parse (arguments.getD []) with e | args
    · rw [hparse] at hmem
      simp [errResult] at hmem
    · rw [hparse] at hmem
      dsimp only [okText] at hmem
      rcases getBudgetId_trace_cases (some args.model_dump) st.svc with h | h <;>
        rw [h] at hmem <;> simp only [List.nil_append, List.cons_append,
          List.mem_singleton, List.mem_cons, List.not_mem_nil, or_false,
          false_or] at hmem
      · injection hmem with hb hp
        rw [hp]
        exact transactionData_clean args
      · rcases hmem with hmem | hmem
        · exact absurd hmem (by simp)
        · injection hmem with hb hp
          rw [hp]
          exact transactionData_clean args
  · intro tx
    simp [updatePayload, TransactionUpdate.model_dump, PyVal.isNone, lookupKey]
  · intro i m
    rfl
  · intro st arguments b ps hmem
    have hd : handle_call_tool "update-transactions" arguments st =
        handleUpdateTransactions arguments st := rfl
    rw [hd] at hmem
    unfold handleUpdateTransactions at hmem
    rcases hparse : UpdateTransactionsInput.parse (arguments.getD []) with e | args
    · rw [hparse] at hmem
      simp [errResult] at hmem
    · rw [hparse] at hmem
      dsimp only [okText] at hmem
      rcases getBudgetId_trace_cases (some args.model_dump) st.svc with h | h <;>
        rw [h] at hmem <;> simp only [List.nil_append, List.cons_append,
          List.mem_singleton, List.mem_cons, List.not_mem_nil, or_false,
          false_or] at hmem
      · injection hmem with hb hp
        intro p hps
        rw [hp] at hps
        obtain ⟨tx, -, htx⟩ := List.mem_map.mp hps
        rw [← htx]
        exact updatePayload_clean tx
      · rcases hmem with hmem | hmem
        · exact absurd hmem (by simp)
        · injection hmem with hb hp
          intro p hps
          rw [hp] at hps
          obtain ⟨tx, -, htx⟩ := List.mem_map.mp hps
          rw [← htx]
          exact updatePayload_clean tx

/-- Concrete `create-transaction` arguments carrying only the required
fields. -/
def createArgs0 : ArgMap :=
  [("account_id", .str "acc1"), ("date", .str "2024-01-02"), ("amount", .int (-4500))]

/-- The record `createArgs0` validates to. -/
def argsC : CreateTransactionInput :=
  ⟨Option.none, "acc1", "2024-01-02", -4500, Option.none, Option.none, Option.none,
   Option.none, Option.none, false, Option.none, Option.none⟩

/-- A `TransactionUpdate` record giving only id and memo. -/
def tx0 : TransactionUpdate :=
  ⟨"t1", Option.none, Option.none, Option.none, Option.none, Option.none,
   some "note", Option.none, Option.none, Option.none⟩

/-- Concrete `update-transactions` arguments with one id+memo record. -/
def updateArgs0 : ArgMap :=
  [("transactions", .list [.dict [("id", .str "t1"), ("memo", .str "note")]])]

theorem c6_payload_stripping_witness :
    (PyVal.str "acc1" ≠ PyVal.none ∧ "account_id" ≠ "budget_id") ∧
    (argsC.approved = false ∧ ("approved", PyVal.bool false) ∈ transactionData argsC) ∧
    (PyVal.str "2024-01-02" ≠ PyVal.none ∧ "date" ≠ "budget_id") ∧
    PyVal.str "note" ≠ PyVal.none ∧
    lookupKey (updatePayload tx0) "id" = some (.str "t1") ∧
    updatePayload tx0 = [("id", .str "t1"), ("memo", .str "note")] ∧
    PyVal.str "t1" ≠ PyVal.none := by
  refine ⟨?_, ?_, ?_, ?_, ?_, ?_, ?_⟩
  · exact c6_payload_stripping.1 argsC ("account_id", .str "acc1")
      (List.mem_cons_self _ _)
  · exact c6_payload_stripping.2.1 createArgs0 argsC rfl rfl
  · exact c6_payload_stripping.2.2.1 st0 (some createArgs0) (.str "bdef")
      (transactionData argsC)
      (List.mem_cons_of_mem _ (List.mem_cons_self _ _))
      ("date", .str "2024-01-02") (List.mem_cons_of_mem _ (List.mem_cons_self _ _))
  · exact (c6_payload_stripping.2.2.2.1 tx0 ("memo", .str "note")
      (List.mem_cons_of_mem _ (List.mem_cons_self _ _)))
  · exact c6_payload_stripping.2.2.2.2.1 tx0
  · exact c6_payload_stripping.2.2.2.2.2.1 "t1" "note"
  · exact (c6_payload_stripping.2.2.2.2.2.2 st0 (some updateArgs0) (.str "bdef")
      [updatePayload tx0]
      (List.mem_cons_of_mem _ (List.mem_cons_self _ _))
      (updatePayload tx0) (List.mem_cons_self _ _)
      ("id", .str "t1") (List.mem_cons_self _ _))

/-- C7: an invocation whose arguments fail validation — a typed-schema
tool whose pydantic parse rejects the arguments, or an ad hoc checked
tool missing a required key (including absent arguments) — raises the
error with an empty service-call trace and an unchanged state: no
mutation, partial or otherwise, occurs. -/
theorem c7_validation_before_effects :
    (∀ arguments (st : DState) e,
      ListAccountsInput.parse (arguments.getD []) = Except.error e →
      handle_call_tool "list-accounts" arguments st = ⟨Except.error e, [], st⟩) ∧
    (∀ arguments (st : DState) e,
      ListTransactionsInput.parse (arguments.getD []) = Except.error e →
      handle_call_tool "list-transactions" arguments st = ⟨Except.error e, [], st⟩) ∧
    (∀ arguments (st : DState) e,
      ListMonthlyTransactionsInput.parse (arguments.getD []) = Except.error e →
      handle_call_tool "list-monthly-transactions" arguments st =
        ⟨Except.error e, [], st⟩) ∧
    (∀ arguments (st : DState) e,
      ListCategoriesInput.parse (arguments.getD []) = Except.error e →
      handle_call_tool "list-categories" arguments st = ⟨Except.error e, [], st⟩) ∧
    (∀ arguments (st : DState) e,
      ListPayeesInput.parse (arguments.getD []) = Except.error e →
      handle_call_tool "list-payees" arguments st = ⟨Except.error e, [], st⟩) ∧
    (∀ arguments (st : DState) e,
      CreateTransactionInput.parse (arguments.getD []) = Except.error e →
      handle_call_tool "create-transaction" arguments st = ⟨Except.error e, [], st⟩) ∧
    (∀ arguments (st : DState) e,
      UpdateTransactionsInput.parse (arguments.getD []) = Except.error e →
      handle_call_tool "update-transactions" arguments st = ⟨Except.error e, [], st⟩) ∧
    (∀ arguments (st : DState) e,
      DeleteTransactionInput.parse (arguments.getD []) = Except.error e →
      handle_call_tool "delete-transaction" arguments st = ⟨Except.error e, [], st⟩) ∧
    (∀ (args : ArgMap) (st : DState),
      (args.isEmpty || (lookupKey args "payee_ids").isNone ||
        (lookupKey args "name").isNone) = true →
      handle_call_tool "rename-payees" (some args) st =
        ⟨Except.error (.invalidArgs "Missing required arguments payee_ids and name"),
         [], st⟩) ∧
    (∀ st : DState, handle_call_tool "rename-payees" Option.none st =
      ⟨Except.error (.invalidArgs "Missing required arguments payee_ids and name"),
       [], st⟩) ∧
    (∀ (args : ArgMap) (st : DState),
      (args.isEmpty || (lookupKey args "month").isNone ||
        (lookupKey args "category_id").isNone ||
        (lookupKey args "amount").isNone) = true →
      handle_call_tool "assign-budget-amount" (some args) st =
        ⟨Except.error (.invalidArgs "Missing required arguments"), [], st⟩) ∧
    (∀ st : DState, handle_call_tool "assign-budget-amount" Option.none st =
      ⟨Except.error (.invalidArgs "Missing required arguments"), [], st⟩) ∧
    (∀ (args : ArgMap) (st : DState),
      (args.isEmpty || (lookupKey args "month").isNone ||
        (lookupKey args "from_category_id").isNone ||
        (lookupKey args "to_category_id").isNone ||
        (lookupKey args "amount").isNone) = true →
      handle_call_tool "move-budget-amount" (some args) st =
        ⟨Except.error (.invalidArgs "Missing required arguments"), [], st⟩) ∧
    (∀ st : DState, handle_call_tool "move-budget-amount" Option.none st =
      ⟨Except.error (.invalidArgs "Missing required arguments"), [], st⟩) ∧
    (∀ (args : ArgMap) (st : DState),
      (args.isEmpty || (lookupKey args "section").isNone ||
        (lookupKey args "data").isNone) = true →
      handle_call_tool "update-financial-overview-section" (some args) st =
        ⟨Except.error (.invalidArgs "Missing required arguments section and data"),
         [], st⟩) ∧
    (∀ st : DState, handle_call_tool "update-financial-overview-section" Option.none st =
      ⟨Except.error (.invalidArgs "Missing required arguments section and data"),
       [], st⟩) := by
  refine ⟨?_, ?_, ?_, ?_, ?_, ?_, ?_, ?_, ?_, ?_, ?_, ?_, ?_, ?_, ?_, ?_⟩
  · intro arguments st e hp
    have hd : handle_call_tool "list-accounts" arguments st =
        handleListAccounts arguments st := rfl
    rw [hd]
    unfold handleListAccounts
    rw [hp]
    rfl
  · intro arguments st e hp
    have hd : handle_call_tool "list-transactions" arguments st =
        handleListTransactions arguments st := rfl
    rw [hd]
    unfold handleListTransactions
    rw [hp]
    rfl
  · intro arguments st e hp
    have hd : handle_call_tool "list-monthly-transactions" arguments st =
        handleListMonthlyTransactions arguments st := rfl
    rw [hd]
    unfold handleListMonthlyTransactions
    rw [hp]
    rfl
  · intro arguments st e hp
    have hd : handle_call_tool "list-categories" arguments st =
        handleListCategories arguments st := rfl
    rw [hd]
    unfold handleListCategories
    rw [hp]
    rfl
  · intro arguments st e hp
    have hd : handle_call_tool "list-payees" arguments st =
        handleListPayees arguments st := rfl
    rw [hd]
    unfold handleListPayees
    rw [hp]
    rfl
  · intro arguments st e hp
    have hd : handle_call_tool "create-transaction" arguments st =
        handleCreateTransaction arguments st := rfl
    rw [hd]
    unfold handleCreateTransaction
    rw [hp]
    rfl
  · intro arguments st e hp
    have hd : handle_call_tool "update-transactions" arguments st =
        handleUpdateTransactions arguments st := rfl
    rw [hd]
    unfold handleUpdateTransactions
    rw [hp]
    rfl
  · intro arguments st e hp
    have hd : handle_call_tool "delete-transaction" arguments st =
        handleDeleteTransaction arguments st := rfl
    rw [hd]
    unfold handleDeleteTransaction
    rw [hp]
    rfl
  · intro args st h
    have hd : handle_call_tool "rename-payees" (some args) st =
        handleRenamePayees (some args) st := rfl
    rw [hd]
    unfold handleRenamePayees
    dsimp only
    rw [h]
    rfl
  · intro st; rfl
  · intro args st h
    have hd : handle_call_tool "assign-budget-amount" (some args) st =
        handleAssignBudgetAmount (some args) st := rfl
    rw [hd]
    unfold handleAssignBudgetAmount
    dsimp only
    rw [h]
    rfl
  · intro st; rfl
  · intro args st h
    have hd : handle_call_tool "move-budget-amount" (some args) st =
        handleMoveBudgetAmount (some args) st := rfl
    rw [hd]
    unfold handleMoveBudgetAmount
    dsimp only
    rw [h]
    rfl
  · intro st; rfl
  · intro args st h
    have hd : handle_call_tool "update-financial-overview-section" (some args) st =
        handleUpdateFinancialOverviewSection (some args) st := rfl
    rw [hd]
    unfold handleUpdateFinancialOverviewSection
    dsimp only
    rw [h]
    rfl
  · intro st; rfl

theorem c7_validation_before_effects_witness :
    handle_call_tool "list-accounts" (some [("budget_id", PyVal.int 5)]) st0 =
      ⟨Except.error (.validation "budget_id"), [], st0⟩ ∧
    handle_call_tool "create-transaction" Option.none st0 =
      ⟨Except.error (.validation "account_id"), [], st0⟩ ∧
    handle_call_tool "rename-payees" (some [("payee_ids", PyVal.list [])]) st0 =
      ⟨Except.error (.invalidArgs "Missing required arguments payee_ids and name"),
       [], st0⟩ ∧
    handle_call_tool "rename-payees" Option.none st0 =
      ⟨Except.error (.invalidArgs "Missing required arguments payee_ids and name"),
       [], st0⟩ ∧
    handle_call_tool "assign-budget-amount"
        (some [("category_id", PyVal.str "c"), ("amount", PyVal.int 1)]) st0 =
      ⟨Except.error (.invalidArgs "Missing required arguments"), [], st0⟩ ∧
    handle_call_tool "move-budget-amount"
        (some [("month", PyVal.str "2024-01-01"), ("from_category_id", PyVal.str "catA"),
               ("to_category_id", PyVal.str "catB")]) st0 =
      ⟨Except.error (.invalidArgs "Missing required arguments"), [], st0⟩ ∧
    handle_call_tool "update-financial-overview-section"
        (some [("section", PyVal.str "goals")]) st0 =
      ⟨Except.error (.invalidArgs "Missing required arguments section and data"),
       [], st0⟩ := by
  refine ⟨?_, ?_, ?_, ?_, ?_, ?_, ?_⟩
  · exact c7_validation_before_effects.1 (some [("budget_id", PyVal.int 5)]) st0
      (.validation "budget_id") rfl
  · exact c7_validation_before_effects.2.2.2.2.2.1 Option.none st0
      (.validation "account_id") rfl
  · exact c7_validation_before_effects.2.2.2.2.2.2.2.2.1
      [("payee_ids", PyVal.list [])] st0 rfl
  · exact c7_validation_before_effects.2.2.2.2.2.2.2.2.2.1 st0
  · exact c7_validation_before_effects.2.2.2.2.2.2.2.2.2.2.1
      [("category_id", PyVal.str "c"), ("amount", PyVal.int 1)] st0 rfl
  · exact c7_validation_before_effects.2.2.2.2.2.2.2.2.2.2.2.2.1
      [("month", PyVal.str "2024-01-01"), ("from_category_id", PyVal.str "catA"),
       ("to_category_id", PyVal.str "catB")] st0 rfl
  · exact c7_validation_before_effects.2.2.2.2.2.2.2.2.2.2.2.2.2.2.1
      [("section", PyVal.str "goals")] st0 rfl
